import Mathlib

/-!
# Host-side FPGA GEMM offload (`gemm_fpga.c`)

A shallow embedding of `gemm_fpga_init`, `gemm_fpga_deinit`, `gemm_nn_fpga`
and `checkError`.  The OpenCL runtime is an explicit state machine that
answers every call with a status and a handle; the process state carries the
file-static variables of the translation unit, the host float memory, the
standard output and a log of every runtime call together with its answer.
`exit(1)` is an explicit outcome.

Conventions: `int` is 32-bit two's complement and its arithmetic wraps,
`size_t` is 64-bit, pointers to `float` are addresses counted in float cells,
`malloc` succeeds, and the runtime cannot write the file-static variables.
-/

namespace GemmFpga

/-! ## Constants of `CL/cl.h` (Khronos values) and of the C data model (LP64) -/

def CL_SUCCESS : Int := 0
def CL_DEVICE_NOT_FOUND : Int := -1
def CL_DEVICE_NOT_AVAILABLE : Int := -2
def CL_COMPILER_NOT_AVAILABLE : Int := -3
def CL_MEM_OBJECT_ALLOCATION_FAILURE : Int := -4
def CL_OUT_OF_RESOURCES : Int := -5
def CL_OUT_OF_HOST_MEMORY : Int := -6
def CL_MEM_COPY_OVERLAP : Int := -8
def CL_BUILD_PROGRAM_FAILURE : Int := -11
def CL_MISALIGNED_SUB_BUFFER_OFFSET : Int := -13
def CL_INVALID_VALUE : Int := -30
def CL_INVALID_DEVICE_TYPE : Int := -31
def CL_INVALID_DEVICE : Int := -33
def CL_INVALID_CONTEXT : Int := -34
def CL_INVALID_COMMAND_QUEUE : Int := -36
def CL_INVALID_MEM_OBJECT : Int := -38
def CL_INVALID_IMAGE_SIZE : Int := -40
def CL_INVALID_BINARY : Int := -42
def CL_INVALID_BUILD_OPTIONS : Int := -43
def CL_INVALID_PROGRAM : Int := -44
def CL_INVALID_PROGRAM_EXECUTABLE : Int := -45
def CL_INVALID_KERNEL_DEFINITION : Int := -47
def CL_INVALID_KERNEL : Int := -48
def CL_INVALID_ARG_INDEX : Int := -49
def CL_INVALID_KERNEL_ARGS : Int := -52
def CL_INVALID_WORK_DIMENSION : Int := -53
def CL_INVALID_WORK_GROUP_SIZE : Int := -54
def CL_INVALID_WORK_ITEM_SIZE : Int := -55
def CL_INVALID_GLOBAL_OFFSET : Int := -56
def CL_INVALID_EVENT_WAIT_LIST : Int := -57
def CL_INVALID_EVENT : Int := -58
def CL_INVALID_OPERATION : Int := -59
def CL_INVALID_BUFFER_SIZE : Int := -61
def CL_INVALID_GLOBAL_WORK_SIZE : Int := -63

/-- The symbolic name `CL/cl.h` gives to each error code of OpenCL 1.1
(`none` for a value that is not an error code of the header). -/
def clErrorName (err : Int) : Option String :=
  if err = -1 then some "CL_DEVICE_NOT_FOUND"
  else if err = -2 then some "CL_DEVICE_NOT_AVAILABLE"
  else if err = -3 then some "CL_COMPILER_NOT_AVAILABLE"
  else if err = -4 then some "CL_MEM_OBJECT_ALLOCATION_FAILURE"
  else if err = -5 then some "CL_OUT_OF_RESOURCES"
  else if err = -6 then some "CL_OUT_OF_HOST_MEMORY"
  else if err = -7 then some "CL_PROFILING_INFO_NOT_AVAILABLE"
  else if err = -8 then some "CL_MEM_COPY_OVERLAP"
  else if err = -9 then some "CL_IMAGE_FORMAT_MISMATCH"
  else if err = -10 then some "CL_IMAGE_FORMAT_NOT_SUPPORTED"
  else if err = -11 then some "CL_BUILD_PROGRAM_FAILURE"
  else if err = -12 then some "CL_MAP_FAILURE"
  else if err = -13 then some "CL_MISALIGNED_SUB_BUFFER_OFFSET"
  else if err = -14 then some "CL_EXEC_STATUS_ERROR_FOR_EVENTS_IN_WAIT_LIST"
  else if err = -30 then some "CL_INVALID_VALUE"
  else if err = -31 then some "CL_INVALID_DEVICE_TYPE"
  else if err = -32 then some "CL_INVALID_PLATFORM"
  else if err = -33 then some "CL_INVALID_DEVICE"
  else if err = -34 then some "CL_INVALID_CONTEXT"
  else if err = -35 then some "CL_INVALID_QUEUE_PROPERTIES"
  else if err = -36 then some "CL_INVALID_COMMAND_QUEUE"
  else if err = -37 then some "CL_INVALID_HOST_PTR"
  else if err = -38 then some "CL_INVALID_MEM_OBJECT"
  else if err = -39 then some "CL_INVALID_IMAGE_FORMAT_DESCRIPTOR"
  else if err = -40 then some "CL_INVALID_IMAGE_SIZE"
  else if err = -41 then some "CL_INVALID_SAMPLER"
  else if err = -42 then some "CL_INVALID_BINARY"
  else if err = -43 then some "CL_INVALID_BUILD_OPTIONS"
  else if err = -44 then some "CL_INVALID_PROGRAM"
  else if err = -45 then some "CL_INVALID_PROGRAM_EXECUTABLE"
  else if err = -46 then some "CL_INVALID_KERNEL_NAME"
  else if err = -47 then some "CL_INVALID_KERNEL_DEFINITION"
  else if err = -48 then some "CL_INVALID_KERNEL"
  else if err = -49 then some "CL_INVALID_ARG_INDEX"
  else if err = -50 then some "CL_INVALID_ARG_VALUE"
  else if err = -51 then some "CL_INVALID_ARG_SIZE"
  else if err = -52 then some "CL_INVALID_KERNEL_ARGS"
  else if err = -53 then some "CL_INVALID_WORK_DIMENSION"
  else if err = -54 then some "CL_INVALID_WORK_GROUP_SIZE"
  else if err = -55 then some "CL_INVALID_WORK_ITEM_SIZE"
  else if err = -56 then some "CL_INVALID_GLOBAL_OFFSET"
  else if err = -57 then some "CL_INVALID_EVENT_WAIT_LIST"
  else if err = -58 then some "CL_INVALID_EVENT"
  else if err = -59 then some "CL_INVALID_OPERATION"
  else if err = -60 then some "CL_INVALID_GL_OBJECT"
  else if err = -61 then some "CL_INVALID_BUFFER_SIZE"
  else if err = -62 then some "CL_INVALID_MIP_LEVEL"
  else if err = -63 then some "CL_INVALID_GLOBAL_WORK_SIZE"
  else if err = -64 then some "CL_INVALID_PROPERTY"
  else none

def CL_DEVICE_TYPE_DEFAULT : Nat := 1
def CL_MEM_READ_ONLY : Nat := 4
def CL_MEM_COPY_HOST_PTR : Nat := 32
def CL_FALSE : Bool := false

def sizeof_int : Nat := 4
def sizeof_float : Nat := 4
def sizeof_cl_mem : Nat := 8

def KERNEL_FILE : String := "gemm.aocx"
def KERNEL_NAME : String := "gemm_nn"

/-! ## C integer arithmetic -/

/-- The value an `int` expression takes on a two's-complement 32-bit machine. -/
def wrapInt32 (x : Int) : Int := (x + 2 ^ 31) % 2 ^ 32 - 2 ^ 31

/-- Conversion of an `int` to the 64-bit unsigned `size_t`. -/
def toSizeT (x : Int) : Nat := (x % 2 ^ 64).toNat

/-- The C expression `m * k * sizeof(float)`: the product `m * k` is taken in
`int`, converted to `size_t`, and multiplied by 4 in `size_t`. -/
def bufBytes (m k : Int) : Nat := (toSizeT (wrapInt32 (m * k)) * sizeof_float) % 2 ^ 64

/-! ## Handles, host memory, runtime calls -/

/-- Runtime objects (`cl_context`, `cl_mem`, `cl_event`, ...) are pointers;
`0` is `NULL`. -/
abbrev Handle := Nat

/-- A `float *`: an address counted in float cells. -/
abbrev Addr := Nat

/-- Host float memory. -/
abbrev Mem (R : Type) := Addr → R

/-- What `clSetKernelArg` is handed through its `void *`. -/
inductive ArgVal (R : Type) where
  | int (v : Int)
  | float (v : R)
  | mem (h : Handle)
  deriving DecidableEq

/-- The accelerator-runtime entry points the file calls, with the arguments
it passes. -/
inductive Call (R : Type) where
  | clGetPlatformIDs (numEntries : Nat)
  | clGetDeviceIDs (platform : Handle) (deviceType : Nat) (numEntries : Nat)
  | clCreateContext (numDevices : Nat) (device : Handle)
  | clCreateProgramWithBinary (context : Handle) (numDevices : Nat) (device : Handle)
      (length : Nat)
  | clBuildProgram (program : Handle) (numDevices : Nat) (device : Handle)
  | clCreateCommandQueue (context : Handle) (device : Handle) (properties : Nat)
  | clCreateKernel (program : Handle) (name : String)
  | clReleaseKernel (kernel : Handle)
  | clReleaseCommandQueue (queue : Handle)
  | clReleaseProgram (program : Handle)
  | clReleaseContext (context : Handle)
  | clCreateBuffer (context : Handle) (flags : Nat) (size : Nat) (hostPtr : Addr)
  | clSetKernelArg (kernel : Handle) (argIndex : Nat) (argSize : Nat) (value : ArgVal R)
  | clEnqueueNDRangeKernel (queue : Handle) (kernel : Handle) (workDim : Nat)
      (globalWorkSize : List Nat) (waitList : List Handle)
  | clEnqueueReadBuffer (queue : Handle) (buffer : Handle) (blocking : Bool)
      (offset : Nat) (size : Nat) (ptr : Addr) (waitList : List Handle)
  | clWaitForEvents (events : List Handle)
  | clReleaseEvent (event : Handle)
  | clReleaseMemObject (memobj : Handle)
  deriving DecidableEq

/-- The answer of the runtime to one call: the `cl_int` status (returned or
stored through `errcode_ret`) and the object the call yields, if any. -/
structure Response where
  status : Int
  handle : Handle
  deriving DecidableEq

/-- An accelerator runtime: a state machine over its own state `ρ` that
answers a call and may touch host memory while doing so. -/
structure Runtime (R ρ : Type) where
  step : Call R → ρ → Mem R → Response × ρ × Mem R

/-- Outcome of `fopen` on a path: `errno` on failure, the file length in
bytes on success. -/
abbrev FileSys := String → Except Int Nat

/-- Process state: the file-static variables, the runtime, host memory, the
file system, the log of runtime calls (oldest first) and standard output. -/
structure St (R ρ : Type) where
  GEMM_FPGA_INITED : Int
  device : Handle
  context : Handle
  program : Handle
  queue : Handle
  kernel : Handle
  rt : ρ
  mem : Mem R
  fs : FileSys
  trace : List (Call R × Response)
  out : List String

/-- How a procedure ends: it returns a value, or the process has called
`exit`. -/
inductive Res (σ α : Type) where
  | ret (a : α) (s : σ)
  | exit (code : Int) (s : σ)

namespace Res

/-- The process state at the end. -/
def st {σ α : Type} : Res σ α → σ
  | ret _ s => s
  | exit _ s => s

/-- Whether the procedure returned to its caller. -/
def returned {σ α : Type} : Res σ α → Bool
  | ret _ _ => true
  | exit _ _ => false

/-- The status the process exited with, if it did. -/
def exitCode {σ α : Type} : Res σ α → Option Int
  | ret _ _ => none
  | exit code _ => some code

end Res

/-- A C procedure over the process state. -/
def Proc (R ρ α : Type) : Type := St R ρ → Res (St R ρ) α

namespace Proc

def pure {R ρ α : Type} (a : α) : Proc R ρ α := fun s => Res.ret a s

def bind {R ρ α β : Type} (m : Proc R ρ α) (k : α → Proc R ρ β) : Proc R ρ β := fun s =>
  match m s with
  | Res.ret a s1 => k a s1
  | Res.exit c s1 => Res.exit c s1

end Proc

instance (R ρ : Type) : Monad (Proc R ρ) where
  pure := Proc.pure
  bind := Proc.bind

/-- One runtime call: the runtime answers, the call and its answer are
logged. -/
def call {R ρ : Type} (rt : Runtime R ρ) (c : Call R) : Proc R ρ Response := fun s =>
  let r := rt.step c s.rt s.mem
  Res.ret r.1 { s with rt := r.2.1, mem := r.2.2, trace := s.trace ++ [(c, r.1)] }

/-- The C call `printf` with its formatted text. -/
def printf {R ρ : Type} (text : String) : Proc R ρ Unit := fun s =>
  Res.ret () { s with out := s.out ++ [text] }

/-- The C call `exit`. -/
def exit {R ρ α : Type} (code : Int) : Proc R ρ α := fun s => Res.exit code s

/-- The `switch` of `checkError`: the text printed for `err`, if any. -/
def checkErrorSwitch (err : Int) : Option String :=
  if err = CL_DEVICE_NOT_FOUND then some "(CL_DEVICE_NOT_FOUND)"
  else if err = CL_DEVICE_NOT_AVAILABLE then some "(CL_DEVICE_NOT_AVAILABLE)"
  else if err = CL_COMPILER_NOT_AVAILABLE then some "(CL_COMPILER_NOT_AVAILABLE)"
  else if err = CL_MEM_OBJECT_ALLOCATION_FAILURE then some "(CL_MEM_OBJECT_ALIOCATION_FAILURE)"
  else if err = CL_OUT_OF_RESOURCES then some "(CL_OUT_OF_RESOURCES)"
  else if err = CL_OUT_OF_HOST_MEMORY then some "(CL_OUT_OF_HOST_MEMORY)"
  else if err = CL_MEM_COPY_OVERLAP then some "(CL_MEM_COPY_OVERLAP)"
  else if err = CL_BUILD_PROGRAM_FAILURE then some "(CL_BUILD_PROGRAM_FAILURE)"
  else if err = CL_INVALID_VALUE then some "(CL_INVALID_VALUE)"
  else if err = CL_INVALID_DEVICE_TYPE then some "(CL_INVALID_DEVICE_TYPE)"
  else if err = CL_INVALID_DEVICE then some "(CL_INVALID_DEVICE)"
  else if err = CL_INVALID_CONTEXT then some "(CL_INVALID_CONTEXT)"
  else if err = CL_INVALID_BINARY then some "(CL_INVALID_BINARY)"
  else if err = CL_INVALID_BUILD_OPTIONS then some "(CL_INVALID_BUILD_OPTIONS)"
  else if err = CL_INVALID_PROGRAM then some "(CL_INVALID_PROGRAM)"
  else if err = CL_INVALID_PROGRAM_EXECUTABLE then some "(CL_INVALID_PROGRAM_EXECUTABLE)"
  else if err = CL_INVALID_KERNEL_DEFINITION then some "(CL_INVALID_KERNEL_DEFINITION)"
  else if err = CL_INVALID_KERNEL then some "(CL_INVALID_KERNEL)"
  else if err = CL_INVALID_KERNEL_ARGS then some "(CL_INVALID_KERNEL_ARGS)"
  else if err = CL_INVALID_OPERATION then some "(CL_INVALID_OPERATION)"
  else if err = CL_INVALID_COMMAND_QUEUE then some "(CL_INVALID_COMMAND_QUEUE)"
  else if err = CL_INVALID_WORK_DIMENSION then some "(CL_INVALID_WORK_DIMENSION)"
  else if err = CL_INVALID_WORK_GROUP_SIZE then some "(CL_INVALID_WORK_GROUP_SIZE)"
  else if err = CL_INVALID_WORK_ITEM_SIZE then some "(CL_INVALID_WORK_ITEM_SIZE)"
  else if err = CL_INVALID_GLOBAL_WORK_SIZE then some "(CL_INVALID_GLOBAL_WORK_SIZE)"
  else if err = CL_INVALID_GLOBAL_OFFSET then some "(CL_INVALID_GLOBAL_OFFSET)"
  else if err = CL_INVALID_IMAGE_SIZE then some "(CL_INVALID_IMAGE_SIZE)"
  else if err = CL_INVALID_EVENT_WAIT_LIST then some "(CL_INVALID_EVENT_WAIT_LIST)"
  else if err = CL_MISALIGNED_SUB_BUFFER_OFFSET then some "(CL_MISALIGNED_SUB_BUFFER_OFFSET)"
  else none

/-- The procedure `checkError(err, name)`. -/
def checkError {R ρ : Type} (err : Int) (name : String) : Proc R ρ Unit :=
  if err ≠ CL_SUCCESS then do
    printf ("Error: " ++ name ++ " " ++ toString err)
    match checkErrorSwitch err with
    | some text => printf text
    | none => Proc.pure ()
    printf "\n"
    exit 1
  else
    Proc.pure ()

/-- A runtime call whose arguments may read the file-static variables. -/
def callWith {R ρ : Type} (rt : Runtime R ρ) (c : St R ρ → Call R) : Proc R ρ Response :=
  fun s => call rt (c s) s

/-- A runtime call whose returned status the caller drops. -/
def callVoid {R ρ : Type} (rt : Runtime R ρ) (c : St R ρ → Call R) : Proc R ρ Unit :=
  fun s => match callWith rt c s with
    | Res.ret _ s1 => Res.ret () s1
    | Res.exit code s1 => Res.exit code s1

/-- The C statement `if (c) { body }`, the condition read from the process
state. -/
def ifThen {R ρ : Type} (c : St R ρ → Prop) [DecidablePred c] (body : Proc R ρ Unit) :
    Proc R ρ Unit :=
  fun s => if c s then body s else Res.ret () s

/-- The C call `fopen(path, "r")`: `errno` or the length of the file. -/
def fopen {R ρ : Type} (path : String) : Proc R ρ (Except Int Nat) := fun s =>
  Res.ret (s.fs path) s

/-- The C call `fread(buf, 1, n, fp)`: the number of bytes read. -/
def fread (fp : Except Int Nat) (n : Nat) : Nat :=
  match fp with
  | Except.ok len => min len n
  | Except.error _ => 0

/-- Assignment to the file-static variables. -/
def setDevice {R ρ : Type} (h : Handle) : Proc R ρ Unit := fun s =>
  Res.ret () { s with device := h }

def setContext {R ρ : Type} (h : Handle) : Proc R ρ Unit := fun s =>
  Res.ret () { s with context := h }

def setProgram {R ρ : Type} (h : Handle) : Proc R ρ Unit := fun s =>
  Res.ret () { s with program := h }

def setQueue {R ρ : Type} (h : Handle) : Proc R ρ Unit := fun s =>
  Res.ret () { s with queue := h }

def setKernel {R ρ : Type} (h : Handle) : Proc R ρ Unit := fun s =>
  Res.ret () { s with kernel := h }

def setInited {R ρ : Type} (v : Int) : Proc R ρ Unit := fun s =>
  Res.ret () { s with GEMM_FPGA_INITED := v }

/-- A host routine acting on float memory only. -/
def hostCall {R ρ : Type} (f : Mem R → Mem R) : Proc R ρ Unit := fun s =>
  Res.ret () { s with mem := f s.mem }

/-- The procedure `gemm_fpga_init()`. -/
def gemm_fpga_init {R ρ : Type} (rt : Runtime R ρ) : Proc R ρ Unit := fun s =>
  if s.GEMM_FPGA_INITED ≠ 0 then Res.ret () s
  else (do
    -- Identify a platform
    let r ← callWith rt (fun _ => Call.clGetPlatformIDs 1)
    let platform := r.handle
    checkError r.status "Failed to get Platform ID"
    -- Access a device
    let r ← callWith rt (fun _ => Call.clGetDeviceIDs platform CL_DEVICE_TYPE_DEFAULT 1)
    setDevice r.handle
    checkError r.status "Failed to get Device ID"
    -- Create the context.
    let r ← callWith rt (fun g => Call.clCreateContext 1 g.device)
    setContext r.handle
    checkError r.status "Failed to create the context"
    -- Load the source code containing the kernel
    let fp ← fopen KERNEL_FILE
    (match fp with
      | Except.error errno => (do
        printf ("Error: " ++ KERNEL_FILE ++ " fopen failed, err " ++ toString errno)
        checkError CL_INVALID_VALUE "")
      | Except.ok _ => Proc.pure ())
    let source_size := fread fp 0x5000000
    -- Create Program.
    let r ← callWith rt (fun g => Call.clCreateProgramWithBinary g.context 1 g.device source_size)
    setProgram r.handle
    checkError r.status "Failed to create program"
    -- Build the program that was just created.
    let r ← callWith rt (fun g => Call.clBuildProgram g.program 1 g.device)
    checkError r.status "Failed to build program"
    -- Create Command Queue.
    let r ← callWith rt (fun g => Call.clCreateCommandQueue g.context g.device 0)
    setQueue r.handle
    checkError r.status "Failed to create command queue"
    -- Create Kernel.
    let kernel_name := KERNEL_NAME
    let r ← callWith rt (fun g => Call.clCreateKernel g.program kernel_name)
    setKernel r.handle
    checkError r.status "Failed to create kernel"
    setInited 1
    return) s

/-- The procedure `gemm_fpga_deinit()`. -/
def gemm_fpga_deinit {R ρ : Type} (rt : Runtime R ρ) : Proc R ρ Unit := fun s =>
  if s.GEMM_FPGA_INITED = 0 then Res.ret () s
  else (do
    ifThen (fun g => g.kernel ≠ 0)
      (callVoid rt (fun g => Call.clReleaseKernel g.kernel))
    ifThen (fun g => g.queue ≠ 0)
      (callVoid rt (fun g => Call.clReleaseCommandQueue g.queue))
    ifThen (fun g => g.program ≠ 0)
      (callVoid rt (fun g => Call.clReleaseProgram g.program))
    ifThen (fun g => g.context ≠ 0)
      (callVoid rt (fun g => Call.clReleaseContext g.context))
    setInited 0
    return) s

/-- The signature of the host routine `gemm_nn`, whose body is in another
translation unit: its ten arguments, and its effect on host memory. -/
abbrev HostGemm (R : Type) :=
  Int → Int → Int → R → Addr → Int → Addr → Int → Addr → Int → Mem R → Mem R

/-- The procedure `gemm_nn_fpga(M, N, K, ALPHA, A, lda, B, ldb, C, ldc)`. -/
def gemm_nn_fpga {R ρ : Type} (rt : Runtime R ρ) (gemm_nn : HostGemm R)
    (M N K : Int) (ALPHA : R) (A : Addr) (lda : Int) (B : Addr) (ldb : Int)
    (C : Addr) (ldc : Int) : Proc R ρ Unit := fun s =>
  if s.GEMM_FPGA_INITED = 0 then (do
    printf "Warning: Gemm FPGA wasn't initialized (Using CPU).\n"
    hostCall (gemm_nn M N K ALPHA A lda B ldb C ldc)) s
  else (do
    -- Create buffer objects
    let r ← callWith rt (fun g => Call.clCreateBuffer g.context
      (CL_MEM_READ_ONLY ||| CL_MEM_COPY_HOST_PTR) (bufBytes M K) A)
    let a_buf := r.handle
    checkError r.status "Failed to create buffer for input A"
    let r ← callWith rt (fun g => Call.clCreateBuffer g.context
      (CL_MEM_READ_ONLY ||| CL_MEM_COPY_HOST_PTR) (bufBytes K N) B)
    let b_buf := r.handle
    checkError r.status "Failed to create buffer for input B"
    let r ← callWith rt (fun g => Call.clCreateBuffer g.context
      CL_MEM_COPY_HOST_PTR (bufBytes M N) C)
    let c_buf := r.handle
    checkError r.status "Failed to create buffer for input/output C"
    -- Pass arguments to the kernel
    let r ← callWith rt (fun g => Call.clSetKernelArg g.kernel 0 sizeof_int (ArgVal.int M))
    checkError r.status "Failed to set argument"
    let r ← callWith rt (fun g => Call.clSetKernelArg g.kernel 1 sizeof_int (ArgVal.int N))
    checkError r.status "Failed to set argument"
    let r ← callWith rt (fun g => Call.clSetKernelArg g.kernel 2 sizeof_int (ArgVal.int K))
    checkError r.status "Failed to set argument"
    let r ← callWith rt (fun g => Call.clSetKernelArg g.kernel 3 sizeof_float (ArgVal.float ALPHA))
    checkError r.status "Failed to set argument"
    let r ← callWith rt (fun g => Call.clSetKernelArg g.kernel 4 sizeof_cl_mem (ArgVal.mem a_buf))
    checkError r.status "Failed to set argument"
    let r ← callWith rt (fun g => Call.clSetKernelArg g.kernel 5 sizeof_int (ArgVal.int lda))
    checkError r.status "Failed to set argument"
    let r ← callWith rt (fun g => Call.clSetKernelArg g.kernel 6 sizeof_cl_mem (ArgVal.mem b_buf))
    checkError r.status "Failed to set argument"
    let r ← callWith rt (fun g => Call.clSetKernelArg g.kernel 7 sizeof_int (ArgVal.int ldb))
    checkError r.status "Failed to set argument"
    let r ← callWith rt (fun g => Call.clSetKernelArg g.kernel 8 sizeof_cl_mem (ArgVal.mem c_buf))
    checkError r.status "Failed to set argument"
    let r ← callWith rt (fun g => Call.clSetKernelArg g.kernel 9 sizeof_int (ArgVal.int ldc))
    checkError r.status "Failed to set argument"
    -- Enqueues a command to execute a kernel on a device
    let global_work_size := 1
    let r ← callWith rt (fun g => Call.clEnqueueNDRangeKernel g.queue g.kernel 1
      [global_work_size] [])
    let kernel_event := r.handle
    checkError r.status "Failed to launch kernel"
    -- Enqueue commands to read from a buffer object to host memory
    let r ← callWith rt (fun g => Call.clEnqueueReadBuffer g.queue c_buf CL_FALSE
      0 (bufBytes M N) C [kernel_event])
    let finish_event := r.handle
    checkError r.status "Failed to read from a buffer object"
    callVoid rt (fun _ => Call.clWaitForEvents [finish_event])
    callVoid rt (fun _ => Call.clReleaseEvent kernel_event)
    callVoid rt (fun _ => Call.clReleaseEvent finish_event)
    -- Release buffer objects
    ifThen (fun _ => a_buf ≠ 0)
      (callVoid rt (fun _ => Call.clReleaseMemObject a_buf))
    ifThen (fun _ => b_buf ≠ 0)
      (callVoid rt (fun _ => Call.clReleaseMemObject b_buf))
    ifThen (fun _ => c_buf ≠ 0)
      (callVoid rt (fun _ => Call.clReleaseMemObject c_buf))
    return) s

/-! ## Reading the call log -/

/-- One entry of the call log. -/
abbrev Entry (R : Type) := Call R × Response

namespace Call

/-- The name of the entry point. -/
def name {R : Type} : Call R → String
  | clGetPlatformIDs _ => "clGetPlatformIDs"
  | clGetDeviceIDs _ _ _ => "clGetDeviceIDs"
  | clCreateContext _ _ => "clCreateContext"
  | clCreateProgramWithBinary _ _ _ _ => "clCreateProgramWithBinary"
  | clBuildProgram _ _ _ => "clBuildProgram"
  | clCreateCommandQueue _ _ _ => "clCreateCommandQueue"
  | clCreateKernel _ _ => "clCreateKernel"
  | clReleaseKernel _ => "clReleaseKernel"
  | clReleaseCommandQueue _ => "clReleaseCommandQueue"
  | clReleaseProgram _ => "clReleaseProgram"
  | clReleaseContext _ => "clReleaseContext"
  | clCreateBuffer _ _ _ _ => "clCreateBuffer"
  | clSetKernelArg _ _ _ _ => "clSetKernelArg"
  | clEnqueueNDRangeKernel _ _ _ _ _ => "clEnqueueNDRangeKernel"
  | clEnqueueReadBuffer _ _ _ _ _ _ _ => "clEnqueueReadBuffer"
  | clWaitForEvents _ => "clWaitForEvents"
  | clReleaseEvent _ => "clReleaseEvent"
  | clReleaseMemObject _ => "clReleaseMemObject"

/-- The six release entry points. -/
def isRelease {R : Type} : Call R → Bool
  | clReleaseKernel _ => true
  | clReleaseCommandQueue _ => true
  | clReleaseProgram _ => true
  | clReleaseContext _ => true
  | clReleaseEvent _ => true
  | clReleaseMemObject _ => true
  | _ => false

/-- The calls of `gemm_nn_fpga` that create a buffer, bind an argument,
launch the kernel or enqueue the read-back. -/
def isDispatchStep {R : Type} : Call R → Bool
  | clCreateBuffer _ _ _ _ => true
  | clSetKernelArg _ _ _ _ => true
  | clEnqueueNDRangeKernel _ _ _ _ _ => true
  | clEnqueueReadBuffer _ _ _ _ _ _ _ => true
  | _ => false

end Call

/-- A buffer or an event, the two kinds of object a dispatch creates. -/
inductive Obj where
  | buffer (h : Handle)
  | event (h : Handle)
  deriving DecidableEq

/-- The object a logged call created: a buffer when `clCreateBuffer` answered
`CL_SUCCESS` with a non-null handle, an event when an enqueue answered
`CL_SUCCESS`. -/
def created {R : Type} (e : Entry R) : Option Obj :=
  match e.1 with
  | Call.clCreateBuffer _ _ _ _ =>
    if e.2.status = CL_SUCCESS ∧ e.2.handle ≠ 0 then some (Obj.buffer e.2.handle) else none
  | Call.clEnqueueNDRangeKernel _ _ _ _ _ =>
    if e.2.status = CL_SUCCESS then some (Obj.event e.2.handle) else none
  | Call.clEnqueueReadBuffer _ _ _ _ _ _ _ =>
    if e.2.status = CL_SUCCESS then some (Obj.event e.2.handle) else none
  | _ => none

/-- The buffer or event a logged call released, if any. -/
def released {R : Type} (e : Entry R) : Option Obj :=
  match e.1 with
  | Call.clReleaseMemObject h => some (Obj.buffer h)
  | Call.clReleaseEvent h => some (Obj.event h)
  | _ => none

/-- The standard output of a failing `checkError`. -/
def errorText (err : Int) (name : String) : List String :=
  ["Error: " ++ name ++ " " ++ toString err] ++
    (match checkErrorSwitch err with
     | some text => [text]
     | none => []) ++ ["\n"]

/-- A run from the state `s` ends in `res`, having logged `new` on top of the
log of `s`, and `P` holds of everything logged since the procedure began
(`acc` before this point, then `new`) and of the outcome. -/
def Walk {R ρ α : Type} (P : List (Entry R) → Res (St R ρ) α → Prop)
    (acc : List (Entry R)) (s : St R ρ) (res : Res (St R ρ) α) : Prop :=
  ∃ new, res.st.trace = s.trace ++ new ∧ P (acc ++ new) res

/-- The runtime `rt` gave the logged answer to the logged call, in some state
of its own. -/
def Answered {R ρ : Type} (rt : Runtime R ρ) (e : Entry R) : Prop :=
  ∃ (ρ0 : ρ) (m : Mem R), e.2 = (rt.step e.1 ρ0 m).1

/-- A runtime never answers `clCreateBuffer` with `CL_SUCCESS` and a `NULL`
buffer (OpenCL: a valid non-zero buffer object is returned on success). -/
def CreatesNonNull {R ρ : Type} (rt : Runtime R ρ) : Prop :=
  ∀ (ctx flags size : Nat) (hostPtr : Addr) (ρ0 : ρ) (m : Mem R),
    (rt.step (Call.clCreateBuffer ctx flags size hostPtr) ρ0 m).1.status = CL_SUCCESS →
    (rt.step (Call.clCreateBuffer ctx flags size hostPtr) ρ0 m).1.handle ≠ 0

/-- What the guarded release of the buffer `h` logs: nothing when `h` is
`NULL`, else one `clReleaseMemObject(h)`. -/
def ReleaseLog {R : Type} (h : Handle) (l : List (Entry R)) : Prop :=
  (h = 0 ∧ l = []) ∨ (h ≠ 0 ∧ ∃ r, l = [(Call.clReleaseMemObject h, r)])

/-- The answers of the runtime to the eighteen unguarded calls of one
complete dispatch. -/
structure DispatchAnswers where
  a_buf : Response
  b_buf : Response
  c_buf : Response
  arg0 : Response
  arg1 : Response
  arg2 : Response
  arg3 : Response
  arg4 : Response
  arg5 : Response
  arg6 : Response
  arg7 : Response
  arg8 : Response
  arg9 : Response
  launch : Response
  readBack : Response
  wait : Response
  relKernelEvent : Response
  relFinishEvent : Response

/-- The fifteen statuses a complete dispatch hands to `checkError`. -/
def DispatchAnswers.checked (d : DispatchAnswers) : List Int :=
  [d.a_buf.status, d.b_buf.status, d.c_buf.status, d.arg0.status, d.arg1.status,
   d.arg2.status, d.arg3.status, d.arg4.status, d.arg5.status, d.arg6.status,
   d.arg7.status, d.arg8.status, d.arg9.status, d.launch.status, d.readBack.status]

/-- The log of a complete dispatch up to and including the two event
releases, for the answers `d`. -/
def dispatchLog {R ρ : Type} (g : St R ρ) (M N K : Int) (ALPHA : R) (A : Addr) (lda : Int)
    (B : Addr) (ldb : Int) (C : Addr) (ldc : Int) (d : DispatchAnswers) : List (Entry R) :=
  [(Call.clCreateBuffer g.context (CL_MEM_READ_ONLY ||| CL_MEM_COPY_HOST_PTR)
      (bufBytes M K) A, d.a_buf),
   (Call.clCreateBuffer g.context (CL_MEM_READ_ONLY ||| CL_MEM_COPY_HOST_PTR)
      (bufBytes K N) B, d.b_buf),
   (Call.clCreateBuffer g.context CL_MEM_COPY_HOST_PTR (bufBytes M N) C, d.c_buf),
   (Call.clSetKernelArg g.kernel 0 sizeof_int (ArgVal.int M), d.arg0),
   (Call.clSetKernelArg g.kernel 1 sizeof_int (ArgVal.int N), d.arg1),
   (Call.clSetKernelArg g.kernel 2 sizeof_int (ArgVal.int K), d.arg2),
   (Call.clSetKernelArg g.kernel 3 sizeof_float (ArgVal.float ALPHA), d.arg3),
   (Call.clSetKernelArg g.kernel 4 sizeof_cl_mem (ArgVal.mem d.a_buf.handle), d.arg4),
   (Call.clSetKernelArg g.kernel 5 sizeof_int (ArgVal.int lda), d.arg5),
   (Call.clSetKernelArg g.kernel 6 sizeof_cl_mem (ArgVal.mem d.b_buf.handle), d.arg6),
   (Call.clSetKernelArg g.kernel 7 sizeof_int (ArgVal.int ldb), d.arg7),
   (Call.clSetKernelArg g.kernel 8 sizeof_cl_mem (ArgVal.mem d.c_buf.handle), d.arg8),
   (Call.clSetKernelArg g.kernel 9 sizeof_int (ArgVal.int ldc), d.arg9),
   (Call.clEnqueueNDRangeKernel g.queue g.kernel 1 [1] [], d.launch),
   (Call.clEnqueueReadBuffer g.queue d.c_buf.handle CL_FALSE 0 (bufBytes M N) C
      [d.launch.handle], d.readBack),
   (Call.clWaitForEvents [d.readBack.handle], d.wait),
   (Call.clReleaseEvent d.launch.handle, d.relKernelEvent),
   (Call.clReleaseEvent d.readBack.handle, d.relFinishEvent)]

/-- The codes whose `case` in `checkError` prints the name of the code. -/
def namedCodes : List Int :=
  [CL_DEVICE_NOT_FOUND, CL_DEVICE_NOT_AVAILABLE, CL_COMPILER_NOT_AVAILABLE,
   CL_OUT_OF_RESOURCES, CL_OUT_OF_HOST_MEMORY, CL_MEM_COPY_OVERLAP, CL_BUILD_PROGRAM_FAILURE,
   CL_INVALID_VALUE, CL_INVALID_DEVICE_TYPE, CL_INVALID_DEVICE, CL_INVALID_CONTEXT,
   CL_INVALID_BINARY, CL_INVALID_BUILD_OPTIONS, CL_INVALID_PROGRAM,
   CL_INVALID_PROGRAM_EXECUTABLE, CL_INVALID_KERNEL_DEFINITION, CL_INVALID_KERNEL,
   CL_INVALID_KERNEL_ARGS, CL_INVALID_OPERATION, CL_INVALID_COMMAND_QUEUE,
   CL_INVALID_WORK_DIMENSION, CL_INVALID_WORK_GROUP_SIZE, CL_INVALID_WORK_ITEM_SIZE,
   CL_INVALID_GLOBAL_WORK_SIZE, CL_INVALID_GLOBAL_OFFSET, CL_INVALID_IMAGE_SIZE,
   CL_INVALID_EVENT_WAIT_LIST, CL_MISALIGNED_SUB_BUFFER_OFFSET]

/-- All the codes that have a `case` in the `switch` of `checkError`. -/
def switchCodes : List Int := CL_MEM_OBJECT_ALLOCATION_FAILURE :: namedCodes

/-- Whether the text `t` occurs in what was printed. -/
def printsText (out : List String) (t : String) : Prop :=
  t.toList <:+: (String.join out).toList

/-! ## Sample runtimes and states -/

/-- A runtime that answers every call with `CL_SUCCESS` and the handle `1`. -/
def okRuntime (R : Type) : Runtime R Unit where
  step := fun _ _ m => (⟨CL_SUCCESS, 1⟩, (), m)

/-- A runtime like `okRuntime` whose `clWaitForEvents` fails. -/
def waitFailRuntime (R : Type) : Runtime R Unit where
  step := fun c _ m =>
    match c with
    | Call.clWaitForEvents _ => (⟨CL_INVALID_EVENT, 0⟩, (), m)
    | _ => (⟨CL_SUCCESS, 1⟩, (), m)

/-- A fresh process: nothing initialised, empty log, the kernel file present. -/
def st0 : St Int Unit :=
  { GEMM_FPGA_INITED := 0, device := 0, context := 0, program := 0, queue := 0, kernel := 0,
    rt := (), mem := fun _ => 0, fs := fun _ => Except.ok 4096, trace := [], out := [] }

/-- The process after a successful `gemm_fpga_init` on `okRuntime`, with an
empty log. -/
def stReady : St Int Unit :=
  { GEMM_FPGA_INITED := 1, device := 1, context := 1, program := 1, queue := 1, kernel := 1,
    rt := (), mem := fun _ => 0, fs := fun _ => Except.ok 4096, trace := [], out := [] }

/-! ## The reference GEMM and a reference runtime -/

/-- Modelled from the spec: one cell of `alpha·(A·B)` for row-major operands
with leading dimensions `lda` and `ldb`, the operands given as functions of
the cell offset: `alpha * Σ_{k<K} A[i*lda+k] * B[k*ldb+j]`. -/
def gemmCell {R : Type} [Ring R] (K : Nat) (ALPHA : R) (a : Nat → R) (lda : Nat)
    (b : Nat → R) (ldb : Nat) (i j : Nat) : R :=
  ALPHA * ((List.range K).map fun k => a (i * lda + k) * b (k * ldb + j)).sum

/-- Modelled from the spec: the host routine `gemm_nn`, whose body is not in
this file, as `C := alpha·A·B + C` on row-major operands in host memory: the
cell `C + i*ldc + j` with `i < M`, `j < N` gains `alpha * Σ_k A[i*lda+k] *
B[k*ldb+j]`, every other cell is unchanged. -/
def hostGemm {R : Type} [Ring R] : HostGemm R :=
  fun M N K ALPHA A lda B ldb C ldc m p =>
    if C ≤ p ∧ (p - C) / ldc.toNat < M.toNat ∧ (p - C) % ldc.toNat < N.toNat then
      m p + gemmCell K.toNat ALPHA (fun q => m (A + q)) lda.toNat (fun q => m (B + q))
        ldb.toNat ((p - C) / ldc.toNat) ((p - C) % ldc.toNat)
    else m p

/-- Modelled from the spec: the offloaded kernel as the reference
no-transpose GEMM `C := alpha·A·B + C` acting on three device buffers. The
cell `i*ldc + j` of the `C` buffer with `i < M`, `j < N` gains
`alpha * Σ_k A[i*lda+k] * B[k*ldb+j]`; a cell that lies outside its buffer
reads as `0` and is not written. -/
def refGemm {R : Type} [Ring R] (M N K : Nat) (ALPHA : R) (a : List R) (lda : Nat)
    (b : List R) (ldb : Nat) (c : List R) (ldc : Nat) : List R :=
  (List.range c.length).map fun p =>
    if p / ldc < M ∧ p % ldc < N then
      c.getD p 0 + gemmCell K ALPHA (fun q => a.getD q 0) lda (fun q => b.getD q 0) ldb
        (p / ldc) (p % ldc)
    else c.getD p 0

/-- A command in the queue of the reference runtime that has not run yet: a
kernel launch with the arguments bound when it was enqueued, or a read-back;
each with the events it waits for. -/
inductive Cmd (R : Type) where
  | launch (args : Nat → Option (ArgVal R)) (workItems : Nat) (waitList : List Handle)
  | read (buffer : Handle) (offset : Nat) (size : Nat) (ptr : Addr) (waitList : List Handle)

/-- The events a command waits for. -/
def Cmd.waitList {R : Type} : Cmd R → List Handle
  | Cmd.launch _ _ waitList => waitList
  | Cmd.read _ _ _ _ waitList => waitList

/-- State of the reference runtime: the last handle handed out, the device
buffers, the arguments bound to the kernel, and the enqueued commands that
have not run yet, each under the handle of its event. -/
structure RefState (R : Type) where
  next : Handle
  bufs : Handle → Option (List R)
  args : Nat → Option (ArgVal R)
  pending : Handle → Option (Cmd R)

def argInt {R : Type} : Option (ArgVal R) → Option Int
  | some (ArgVal.int v) => some v
  | _ => none

def argFloat {R : Type} : Option (ArgVal R) → Option R
  | some (ArgVal.float v) => some v
  | _ => none

def argMem {R : Type} : Option (ArgVal R) → Option Handle
  | some (ArgVal.mem h) => some h
  | _ => none

/-- The scalar arguments `(M, N, K, alpha)` bound at positions 0 to 3. -/
def boundDims {R : Type} (args : Nat → Option (ArgVal R)) : Option (Int × Int × Int × R) := do
  let M ← argInt (args 0)
  let N ← argInt (args 1)
  let K ← argInt (args 2)
  let ALPHA ← argFloat (args 3)
  pure (M, N, K, ALPHA)

/-- A buffer argument at position `i` followed by its leading dimension at
position `i + 1`: the handle, the contents of the buffer, the dimension. -/
def boundOperand {R : Type} (args : Nat → Option (ArgVal R))
    (bufs : Handle → Option (List R)) (i : Nat) : Option (Handle × List R × Int) := do
  let h ← argMem (args i)
  let ld ← argInt (args (i + 1))
  let buf ← bufs h
  pure (h, buf, ld)

/-- Modelled from the spec: one execution of the kernel, whose image
`gemm.aocx` is not in the sources, with its ten arguments in the order
(M, N, K, alpha, A, lda, B, ldb, C, ldc); each work item performs the whole
GEMM on the buffers. `none` when an argument is missing or of the wrong kind,
or when a buffer does not exist. -/
def refLaunch {R : Type} [Ring R] (args : Nat → Option (ArgVal R))
    (bufs : Handle → Option (List R)) (workItems : Nat) :
    Option (Handle → Option (List R)) := do
  let dims ← boundDims args
  let a ← boundOperand args bufs 4
  let b ← boundOperand args bufs 6
  let c ← boundOperand args bufs 8
  let result := Nat.iterate
    (fun x => refGemm dims.1.toNat dims.2.1.toNat dims.2.2.1.toNat dims.2.2.2
      a.2.1 a.2.2.toNat b.2.1 b.2.2.toNat x c.2.2.toNat)
    workItems c.2.1
  pure (fun h => if h = c.1 then some result else bufs h)

/-- The effect of a command when the device runs it: a launch rewrites the
`C` buffer, a read-back copies `size / sizeof(float)` cells of the buffer to
host memory. -/
def execCmd {R : Type} [Ring R] (cmd : Cmd R) (w : RefState R × Mem R) :
    RefState R × Mem R :=
  match cmd with
  | Cmd.launch args workItems _ =>
    match refLaunch args w.1.bufs workItems with
    | some bufs => ({ w.1 with bufs := bufs }, w.2)
    | none => w
  | Cmd.read buffer offset size ptr _ =>
    match w.1.bufs buffer with
    | some data =>
      (w.1, fun p => if ptr ≤ p ∧ p < ptr + size / sizeof_float
        then data.getD (offset / sizeof_float + (p - ptr)) 0 else w.2 p)
    | none => w

/-- Completion of the event `e`: if its command has not run yet, the events
of its wait list are completed first, then the command runs. The depth of the
dependencies followed is bounded by `fuel`. -/
def runEvent {R : Type} [Ring R] : Nat → Handle → RefState R × Mem R → RefState R × Mem R
  | 0, _, w => w
  | fuel + 1, e, w =>
    match w.1.pending e with
    | none => w
    | some cmd =>
      let w1 := cmd.waitList.foldl (fun x d => runEvent fuel d x) w
      execCmd cmd ({ w1.1 with pending := fun h => if h = e then none else w1.1.pending h },
        w1.2)

/-- Modelled from the spec: a runtime with an asynchronous device. Objects
get fresh non-null handles. `clCreateBuffer` refuses a size of 0 with
`CL_INVALID_BUFFER_SIZE` and otherwise, with `CL_MEM_COPY_HOST_PTR`, copies
`size / sizeof(float)` cells of host memory. A launch and a non-blocking
read-back are only enqueued: the device runs a command when an event that
depends on it is waited for (`clWaitForEvents`, or a blocking read-back), the
events of its wait list first; nothing else orders or forces commands. -/
def refStep {R : Type} [Ring R] (c : Call R) (st : RefState R) (m : Mem R) :
    Response × RefState R × Mem R :=
  match c with
  | Call.clCreateBuffer _ flags size hostPtr =>
    if size = 0 then (⟨CL_INVALID_BUFFER_SIZE, 0⟩, st, m)
    else
      let data : List R :=
        if flags &&& CL_MEM_COPY_HOST_PTR ≠ 0 then
          (List.range (size / sizeof_float)).map fun i => m (hostPtr + i)
        else List.replicate (size / sizeof_float) 0
      (⟨CL_SUCCESS, st.next + 1⟩,
        { st with next := st.next + 1
                  bufs := fun h => if h = st.next + 1 then some data else st.bufs h }, m)
  | Call.clSetKernelArg _ i _ v =>
    (⟨CL_SUCCESS, 0⟩, { st with args := fun j => if j = i then some v else st.args j }, m)
  | Call.clEnqueueNDRangeKernel _ _ _ globalWorkSize waitList =>
    match refLaunch st.args st.bufs globalWorkSize.prod with
    | some _ =>
      (⟨CL_SUCCESS, st.next + 1⟩,
        { st with next := st.next + 1
                  pending := fun h =>
                    if h = st.next + 1 then some (Cmd.launch st.args globalWorkSize.prod waitList)
                    else st.pending h }, m)
    | none => (⟨CL_INVALID_KERNEL_ARGS, 0⟩, st, m)
  | Call.clEnqueueReadBuffer _ buffer blocking offset size ptr waitList =>
    match st.bufs buffer with
    | some data =>
      if offset + size ≤ sizeof_float * data.length then
        let st1 : RefState R :=
          { st with next := st.next + 1
                    pending := fun h =>
                      if h = st.next + 1 then some (Cmd.read buffer offset size ptr waitList)
                      else st.pending h }
        if blocking then
          (⟨CL_SUCCESS, st.next + 1⟩, runEvent (st1.next + 1) (st.next + 1) (st1, m))
        else (⟨CL_SUCCESS, st.next + 1⟩, st1, m)
      else (⟨CL_INVALID_VALUE, 0⟩, st, m)
    | none => (⟨CL_INVALID_MEM_OBJECT, 0⟩, st, m)
  | Call.clWaitForEvents events =>
    (⟨CL_SUCCESS, 0⟩, events.foldl (fun x e => runEvent (st.next + 1) e x) (st, m))
  | Call.clReleaseMemObject h =>
    (⟨CL_SUCCESS, 0⟩, { st with bufs := fun x => if x = h then none else st.bufs x }, m)
  | Call.clGetPlatformIDs _ => (⟨CL_SUCCESS, st.next + 1⟩, { st with next := st.next + 1 }, m)
  | Call.clGetDeviceIDs _ _ _ => (⟨CL_SUCCESS, st.next + 1⟩, { st with next := st.next + 1 }, m)
  | Call.clCreateContext _ _ => (⟨CL_SUCCESS, st.next + 1⟩, { st with next := st.next + 1 }, m)
  | Call.clCreateProgramWithBinary _ _ _ _ =>
    (⟨CL_SUCCESS, st.next + 1⟩, { st with next := st.next + 1 }, m)
  | Call.clCreateCommandQueue _ _ _ =>
    (⟨CL_SUCCESS, st.next + 1⟩, { st with next := st.next + 1 }, m)
  | Call.clCreateKernel _ _ => (⟨CL_SUCCESS, st.next + 1⟩, { st with next := st.next + 1 }, m)
  | _ => (⟨CL_SUCCESS, 0⟩, st, m)

/-- The reference runtime. -/
def refRuntime (R : Type) [Ring R] : Runtime R (RefState R) where
  step := refStep

/-- Host memory holding the list `l` from address `0` on, zero elsewhere. -/
def memOf (l : List Int) : Mem Int := fun p => l.getD p 0

/-- A process on the reference runtime, initialised, with host memory `m`. -/
def stRef (m : Mem Int) : St Int (RefState Int) :=
  { GEMM_FPGA_INITED := 1, device := 2, context := 3, program := 4, queue := 5, kernel := 6,
    rt := { next := 6, bufs := fun _ => none, args := fun _ => none, pending := fun _ => none },
    mem := m, fs := fun _ => Except.ok 4096, trace := [], out := [] }

/-- The names of the seven runtime calls of a complete `gemm_fpga_init`. -/
def initCalls : List String :=
  ["clGetPlatformIDs", "clGetDeviceIDs", "clCreateContext", "clCreateProgramWithBinary",
   "clBuildProgram", "clCreateCommandQueue", "clCreateKernel"]

/-- Outcome of `gemm_fpga_init` started in the uninitialised state `s`, for
the calls `new` it logged. Either it returns, the flag is set, the kernel
file could be opened and the log holds the seven calls of `initCalls`, all
successful; or the process exits with status 1, the flag is still clear, and
either the last logged call is the first that failed or the kernel file could
not be opened after three successful calls. -/
def InitOutcome {R ρ : Type} (s : St R ρ) (new : List (Entry R))
    (res : Res (St R ρ) Unit) : Prop :=
  (res.returned = true →
    res.st.GEMM_FPGA_INITED = 1 ∧ (∃ len, s.fs KERNEL_FILE = Except.ok len) ∧
    new.map (fun e => e.1.name) = initCalls ∧ ∀ e ∈ new, e.2.status = CL_SUCCESS) ∧
  (res.returned = false →
    res.exitCode = some 1 ∧ res.st.GEMM_FPGA_INITED = 0 ∧
    ((∃ pre e, new = pre ++ [e] ∧ e.2.status ≠ CL_SUCCESS ∧
        ∀ x ∈ pre, x.2.status = CL_SUCCESS) ∨
      ((∃ errno, s.fs KERNEL_FILE = Except.error errno) ∧
        new.map (fun e => e.1.name) = initCalls.take 3 ∧ ∀ x ∈ new, x.2.status = CL_SUCCESS)))

/-- Outcome of `gemm_nn_fpga` started in a Ready state, for the calls `new`
it logged. Either it returns and every buffer creation, argument binding,
launch and read-back it logged succeeded; or the process exits with status 1
and the last logged call is such a step that failed, every call before it
being such a step that succeeded. -/
def DispatchOutcome {R ρ : Type} (new : List (Entry R)) (res : Res (St R ρ) Unit) : Prop :=
  (res.returned = true →
    ∀ e ∈ new, e.1.isDispatchStep = true → e.2.status = CL_SUCCESS) ∧
  (res.returned = false →
    res.exitCode = some 1 ∧
    ∃ pre e, new = pre ++ [e] ∧ e.1.isDispatchStep = true ∧ e.2.status ≠ CL_SUCCESS ∧
      ∀ x ∈ pre, x.1.isDispatchStep = true ∧ x.2.status = CL_SUCCESS)

/-- The host pointer and byte size of each logged `clCreateBuffer`. -/
def bufferRequests {R : Type} (log : List (Entry R)) : List (Addr × Nat) :=
  log.filterMap fun e =>
    match e.1 with
    | Call.clCreateBuffer _ _ size hostPtr => some (hostPtr, size)
    | _ => none

/-- The host pointer, offset and byte length of each logged
`clEnqueueReadBuffer`. -/
def readRequests {R : Type} (log : List (Entry R)) : List (Addr × Nat × Nat) :=
  log.filterMap fun e =>
    match e.1 with
    | Call.clEnqueueReadBuffer _ _ _ offset size ptr _ => some (ptr, offset, size)
    | _ => none

/-- The caller's memory after a dispatch that ended in `res`, against the
memory `m0` before it: the call returned, each cell `C[i*ldc+j]` with
`i < M`, `j < N` holds its old value plus `alpha * Σ_k A[i*lda+k]*B[k*ldb+j]`
taken over the old contents, and no cell outside the first `M*N` cells of `C`
has changed. -/
def GemmResult {R ρ : Type} [Ring R] (m0 : Mem R) (M N K : Nat) (ALPHA : R)
    (A lda B ldb C ldc : Nat) (res : Res (St R ρ) Unit) : Prop :=
  res.returned = true ∧
  (∀ i < M, ∀ j < N, res.st.mem (C + (i * ldc + j))
    = m0 (C + (i * ldc + j)) +
      gemmCell K ALPHA (fun q => m0 (A + q)) lda (fun q => m0 (B + q)) ldb i j) ∧
  (∀ p, p < C ∨ C + M * N ≤ p → res.st.mem p = m0 p)

/-! ## Stepping through a procedure -/

section wp
variable {R ρ α β : Type}

theorem checkError_fail (err : Int) (name : String) (s : St R ρ) (h : err ≠ CL_SUCCESS) :
    checkError err name s = Res.exit 1 { s with out := s.out ++ errorText err name } := by
  unfold checkError
  rw [if_pos h]
  unfold errorText
  cases checkErrorSwitch err <;> simp [bind, Proc.bind, printf, GemmFpga.exit, Proc.pure]

theorem bind_run (m : Proc R ρ α) (k : α → Proc R ρ β) (s : St R ρ) :
    (m >>= k) s = match m s with
      | Res.ret a s1 => k a s1
      | Res.exit c s1 => Res.exit c s1 := rfl

theorem bind_bind {γ : Type} (m : Proc R ρ α) (f : α → Proc R ρ β) (g : β → Proc R ρ γ) :
    (m >>= f) >>= g = m >>= fun a => f a >>= g := by
  funext s
  simp only [bind_run]
  cases m s <;> rfl

theorem walk_done {P : List (Entry R) → Res (St R ρ) α → Prop} {acc : List (Entry R)}
    (res : Res (St R ρ) α) (h : P acc res) : Walk P acc res.st res :=
  ⟨[], (List.append_nil _).symm, by rw [List.append_nil]; exact h⟩

theorem walk_snoc {P : List (Entry R) → Res (St R ρ) α → Prop} {acc : List (Entry R)}
    {s s1 : St R ρ} {l : List (Entry R)} {res : Res (St R ρ) α}
    (hs : s1.trace = s.trace ++ l) (h : Walk P (acc ++ l) s1 res) :
    Walk P acc s res := by
  obtain ⟨new, h1, h2⟩ := h
  exact ⟨l ++ new, by rw [h1, hs, List.append_assoc], by
    rw [List.append_assoc] at h2; exact h2⟩

theorem walk_ret (P : List (Entry R) → Res (St R ρ) α → Prop) {acc : List (Entry R)}
    {a : α} {s : St R ρ} (h : P acc (Res.ret a s)) :
    Walk P acc s ((Pure.pure a : Proc R ρ α) s) :=
  walk_done (Res.ret a s) h

theorem walk_callWith (P : List (Entry R) → Res (St R ρ) β → Prop) {acc : List (Entry R)}
    {rt : Runtime R ρ} {c : St R ρ → Call R} {k : Response → Proc R ρ β} {s : St R ρ}
    (h : ∀ (r : Response) (ρ1 : ρ) (m1 : Mem R), Answered rt (c s, r) →
      Walk P (acc ++ [(c s, r)]) { s with rt := ρ1, mem := m1, trace := s.trace ++ [(c s, r)] }
        (k r { s with rt := ρ1, mem := m1, trace := s.trace ++ [(c s, r)] })) :
    Walk P acc s ((callWith rt c >>= k) s) :=
  walk_snoc rfl (h _ _ _ ⟨s.rt, s.mem, rfl⟩)

theorem walk_callVoid (P : List (Entry R) → Res (St R ρ) β → Prop) {acc : List (Entry R)}
    {rt : Runtime R ρ} {c : St R ρ → Call R} {k : Unit → Proc R ρ β} {s : St R ρ}
    (h : ∀ (r : Response) (ρ1 : ρ) (m1 : Mem R), Answered rt (c s, r) →
      Walk P (acc ++ [(c s, r)]) { s with rt := ρ1, mem := m1, trace := s.trace ++ [(c s, r)] }
        (k () { s with rt := ρ1, mem := m1, trace := s.trace ++ [(c s, r)] })) :
    Walk P acc s ((callVoid rt c >>= k) s) :=
  walk_snoc rfl (h _ _ _ ⟨s.rt, s.mem, rfl⟩)

theorem walk_checkError (P : List (Entry R) → Res (St R ρ) β → Prop) {acc : List (Entry R)}
    {err : Int} {name : String} {k : Unit → Proc R ρ β} {s : St R ρ}
    (hfail : err ≠ CL_SUCCESS →
      P acc (Res.exit 1 { s with out := s.out ++ errorText err name }))
    (hok : err = CL_SUCCESS → Walk P acc s (k () s)) :
    Walk P acc s ((checkError err name >>= k) s) := by
  by_cases h : err = CL_SUCCESS
  · subst h
    exact hok rfl
  · rw [bind_run, checkError_fail err name s h]
    exact walk_snoc (List.append_nil _).symm
      (by rw [List.append_nil]
          exact walk_done (Res.exit 1 { s with out := s.out ++ errorText err name }) (hfail h))

/-- The statement `if (c) { release(...) }`: either nothing is logged, or the
release and its answer are. -/
theorem walk_release (P : List (Entry R) → Res (St R ρ) β → Prop) {acc : List (Entry R)}
    {c : St R ρ → Prop} {inst : DecidablePred c} {rt : Runtime R ρ} {f : St R ρ → Call R}
    {k : Unit → Proc R ρ β} {s : St R ρ}
    (h : ∀ (l : List (Entry R)) (ρ1 : ρ) (m1 : Mem R),
      ((¬c s ∧ l = []) ∨ (c s ∧ ∃ r, l = [(f s, r)] ∧ Answered rt (f s, r))) →
      Walk P (acc ++ l) { s with rt := ρ1, mem := m1, trace := s.trace ++ l }
        (k () { s with rt := ρ1, mem := m1, trace := s.trace ++ l })) :
    Walk P acc s ((ifThen c (callVoid rt f) >>= k) s) := by
  by_cases hc : c s
  · have e : (ifThen c (callVoid rt f) >>= k) s = (callVoid rt f >>= k) s := by
      simp only [bind_run, ifThen, if_pos hc]
    rw [e]
    exact walk_snoc rfl
      (h [(f s, (rt.step (f s) s.rt s.mem).1)] _ _ (Or.inr ⟨hc, _, rfl, s.rt, s.mem, rfl⟩))
  · have e : (ifThen c (callVoid rt f) >>= k) s = k () s := by
      simp only [bind_run, ifThen, if_neg hc]
    rw [e]
    have := h [] s.rt s.mem (Or.inl ⟨hc, rfl⟩)
    exact walk_snoc (List.append_nil _).symm (by simpa only [List.append_nil] using this)

/-- A statement that returns and leaves the log alone. -/
theorem walk_quiet (P : List (Entry R) → Res (St R ρ) β → Prop) {acc : List (Entry R)}
    {m : Proc R ρ α} {k : α → Proc R ρ β} {s : St R ρ} (a : α) (s1 : St R ρ)
    (hm : m s = Res.ret a s1) (ht : s1.trace = s.trace)
    (h : Walk P acc s1 (k a s1)) :
    Walk P acc s ((m >>= k) s) := by
  rw [bind_run, hm]
  exact walk_snoc (by rw [ht, List.append_nil]) (by rw [List.append_nil]; exact h)

end wp

theorem releaseLog_of {R ρ : Type} {rt : Runtime R ρ} {h : Handle} {l : List (Entry R)}
    (hl : (¬h ≠ 0 ∧ l = []) ∨
      (h ≠ 0 ∧ ∃ r, l = [(Call.clReleaseMemObject h, r)] ∧
        Answered rt (Call.clReleaseMemObject h, r))) :
    ReleaseLog h l ∧ ∀ e ∈ l, Answered rt e := by
  rcases hl with ⟨h0, rfl⟩ | ⟨h1, r, rfl, ha⟩
  · exact ⟨Or.inl ⟨not_not.mp h0, rfl⟩, by simp⟩
  · exact ⟨Or.inr ⟨h1, r, rfl⟩, by simpa using ha⟩

/-- The log of a complete dispatch. -/
theorem gemm_nn_fpga_ready_log {R ρ : Type} (rt : Runtime R ρ) (gemm_nn : HostGemm R)
    (M N K : Int) (ALPHA : R) (A : Addr) (lda : Int) (B : Addr) (ldb : Int)
    (C : Addr) (ldc : Int) (s : St R ρ) (hready : s.GEMM_FPGA_INITED ≠ 0) :
    Walk (fun new res => res.returned = true →
        ∃ (d : DispatchAnswers) (la lb lc : List (Entry R)),
          new = dispatchLog s M N K ALPHA A lda B ldb C ldc d ++ la ++ lb ++ lc ∧
          (∀ x ∈ d.checked, x = CL_SUCCESS) ∧
          ReleaseLog d.a_buf.handle la ∧ ReleaseLog d.b_buf.handle lb ∧
          ReleaseLog d.c_buf.handle lc ∧ ∀ e ∈ new, Answered rt e)
      [] s (gemm_nn_fpga rt gemm_nn M N K ALPHA A lda B ldb C ldc s) := by
  unfold gemm_nn_fpga
  rw [if_neg hready]
  refine walk_callWith _ (fun ra ρ1 m1 ha => ?_); dsimp only at ha ⊢
  refine walk_checkError _ (fun _ => (fun h => nomatch h)) (fun oka => ?_)
  refine walk_callWith _ (fun rb ρ1 m1 hb => ?_); dsimp only at hb ⊢
  refine walk_checkError _ (fun _ => (fun h => nomatch h)) (fun okb => ?_)
  refine walk_callWith _ (fun rc ρ1 m1 hc => ?_); dsimp only at hc ⊢
  refine walk_checkError _ (fun _ => (fun h => nomatch h)) (fun okc => ?_)
  refine walk_callWith _ (fun r0 ρ1 m1 h0 => ?_); dsimp only at h0 ⊢
  refine walk_checkError _ (fun _ => (fun h => nomatch h)) (fun ok0 => ?_)
  refine walk_callWith _ (fun r1 ρ1 m1 h1 => ?_); dsimp only at h1 ⊢
  refine walk_checkError _ (fun _ => (fun h => nomatch h)) (fun ok1 => ?_)
  refine walk_callWith _ (fun r2 ρ1 m1 h2 => ?_); dsimp only at h2 ⊢
  refine walk_checkError _ (fun _ => (fun h => nomatch h)) (fun ok2 => ?_)
  refine walk_callWith _ (fun r3 ρ1 m1 h3 => ?_); dsimp only at h3 ⊢
  refine walk_checkError _ (fun _ => (fun h => nomatch h)) (fun ok3 => ?_)
  refine walk_callWith _ (fun r4 ρ1 m1 h4 => ?_); dsimp only at h4 ⊢
  refine walk_checkError _ (fun _ => (fun h => nomatch h)) (fun ok4 => ?_)
  refine walk_callWith _ (fun r5 ρ1 m1 h5 => ?_); dsimp only at h5 ⊢
  refine walk_checkError _ (fun _ => (fun h => nomatch h)) (fun ok5 => ?_)
  refine walk_callWith _ (fun r6 ρ1 m1 h6 => ?_); dsimp only at h6 ⊢
  refine walk_checkError _ (fun _ => (fun h => nomatch h)) (fun ok6 => ?_)
  refine walk_callWith _ (fun r7 ρ1 m1 h7 => ?_); dsimp only at h7 ⊢
  refine walk_checkError _ (fun _ => (fun h => nomatch h)) (fun ok7 => ?_)
  refine walk_callWith _ (fun r8 ρ1 m1 h8 => ?_); dsimp only at h8 ⊢
  refine walk_checkError _ (fun _ => (fun h => nomatch h)) (fun ok8 => ?_)
  refine walk_callWith _ (fun r9 ρ1 m1 h9 => ?_); dsimp only at h9 ⊢
  refine walk_checkError _ (fun _ => (fun h => nomatch h)) (fun ok9 => ?_)
  refine walk_callWith _ (fun rk ρ1 m1 hk => ?_); dsimp only at hk ⊢
  refine walk_checkError _ (fun _ => (fun h => nomatch h)) (fun okk => ?_)
  refine walk_callWith _ (fun rf ρ1 m1 hf => ?_); dsimp only at hf ⊢
  refine walk_checkError _ (fun _ => (fun h => nomatch h)) (fun okf => ?_)
  refine walk_callVoid _ (fun rw ρ1 m1 hw => ?_); dsimp only at hw ⊢
  refine walk_callVoid _ (fun re1 ρ1 m1 he1 => ?_); dsimp only at he1 ⊢
  refine walk_callVoid _ (fun re2 ρ1 m1 he2 => ?_); dsimp only at he2 ⊢
  refine walk_release _ (fun la ρ1 m1 hla => ?_); dsimp only at hla ⊢
  refine walk_release _ (fun lb ρ1 m1 hlb => ?_); dsimp only at hlb ⊢
  refine walk_release _ (fun lc ρ1 m1 hlc => ?_); dsimp only at hlc ⊢
  refine walk_ret _ (fun _ => ?_)
  obtain ⟨qa, pa⟩ := releaseLog_of hla
  obtain ⟨qb, pb⟩ := releaseLog_of hlb
  obtain ⟨qc, pc⟩ := releaseLog_of hlc
  refine ⟨⟨ra, rb, rc, r0, r1, r2, r3, r4, r5, r6, r7, r8, r9, rk, rf, rw, re1, re2⟩,
    la, lb, lc, ?_, ?_, qa, qb, qc, ?_⟩
  · simp only [dispatchLog, List.nil_append, List.append_assoc, List.singleton_append,
      List.cons_append]
  · intro x hx
    simp only [DispatchAnswers.checked, List.mem_cons, List.mem_singleton, List.not_mem_nil,
      or_false] at hx
    rcases hx with h | h | h | h | h | h | h | h | h | h | h | h | h | h | h <;>
      rw [h] <;> assumption
  · simp only [List.forall_mem_append, List.forall_mem_singleton, List.nil_append]
    exact ⟨⟨⟨⟨⟨⟨⟨⟨⟨⟨⟨⟨⟨⟨⟨⟨⟨⟨⟨⟨ha, hb⟩, hc⟩, h0⟩, h1⟩, h2⟩, h3⟩, h4⟩, h5⟩, h6⟩, h7⟩, h8⟩, h9⟩, hk⟩,
      hf⟩, hw⟩, he1⟩, he2⟩, pa⟩, pb⟩, pc⟩

/-! ## `checkError` -/

theorem checkErrorSwitch_none {err : Int} (h : err ∉ switchCodes) :
    checkErrorSwitch err = none := by
  simp only [switchCodes, namedCodes, List.mem_cons, List.mem_singleton, List.not_mem_nil,
    or_false, not_or] at h
  unfold checkErrorSwitch
  simp only [h, if_false]

/-- C8 (amended). With `CL_SUCCESS`, `checkError` prints nothing and returns.
With any other status it prints `Error: <name> <status>`, then the text chosen
by its `switch`, then a newline, and calls `exit(1)`; for each of the
twenty-eight codes of `namedCodes` that text is the symbolic name of the code
in parentheses, and for a status without a `case` no text is printed. -/
theorem checkError_diagnostic {R ρ : Type} (err : Int) (name : String) (s : St R ρ) :
    (err = CL_SUCCESS → checkError err name s = Res.ret () s) ∧
    (err ≠ CL_SUCCESS → ∃ body : List String,
      checkError err name s = Res.exit 1
        { s with out := s.out ++
            (["Error: " ++ name ++ " " ++ toString err] ++ body ++ ["\n"]) } ∧
      (err ∈ namedCodes → ∃ nm, clErrorName err = some nm ∧ body = ["(" ++ nm ++ ")"]) ∧
      (err ∉ switchCodes → body = [])) := by
  refine ⟨fun h => by subst h; rfl, fun h => ?_⟩
  refine ⟨match checkErrorSwitch err with
    | some text => [text]
    | none => [], checkError_fail err name s h, ?_, ?_⟩
  · intro hmem
    simp only [namedCodes, List.mem_cons, List.mem_singleton, List.not_mem_nil, or_false] at hmem
    rcases hmem with h | h | h | h | h | h | h | h | h | h | h | h | h | h | h | h | h | h | h |
      h | h | h | h | h | h | h | h | h <;> subst h <;> exact ⟨_, rfl, by decide⟩
  · intro hmem
    rw [checkErrorSwitch_none hmem]

/-- C8 (witness). -/
theorem checkError_diagnostic_witness :
    CL_INVALID_VALUE ≠ CL_SUCCESS ∧ ∃ body : List String,
      checkError CL_INVALID_VALUE "" st0 = Res.exit 1
        { st0 with out := st0.out ++
            (["Error: " ++ "" ++ " " ++ toString CL_INVALID_VALUE] ++ body ++ ["\n"]) } ∧
      (CL_INVALID_VALUE ∈ namedCodes →
        ∃ nm, clErrorName CL_INVALID_VALUE = some nm ∧ body = ["(" ++ nm ++ ")"]) ∧
      (CL_INVALID_VALUE ∉ switchCodes → body = []) :=
  ⟨by decide, (checkError_diagnostic CL_INVALID_VALUE "" st0).2 (by decide)⟩

/-- C8 (counterexample). `clSetKernelArg` may return `CL_INVALID_ARG_INDEX`;
for it `checkError` prints the number only, the name of the code appears
nowhere in the output. -/
theorem checkError_unnamed_code :
    clErrorName CL_INVALID_ARG_INDEX = some "CL_INVALID_ARG_INDEX" ∧
    (checkError CL_INVALID_ARG_INDEX "Failed to set argument" st0).st.out
      = ["Error: Failed to set argument -49", "\n"] ∧
    (checkError CL_INVALID_ARG_INDEX "Failed to set argument" st0).returned = false ∧
    ¬ printsText (checkError CL_INVALID_ARG_INDEX "Failed to set argument" st0).st.out
        "CL_INVALID_ARG_INDEX" := by
  refine ⟨by decide, by decide, by decide, ?_⟩
  unfold printsText
  decide

/-- The `case` of `CL_MEM_OBJECT_ALLOCATION_FAILURE` prints a misspelt name. -/
theorem checkError_misspelt_name :
    clErrorName CL_MEM_OBJECT_ALLOCATION_FAILURE = some "CL_MEM_OBJECT_ALLOCATION_FAILURE" ∧
    (checkError CL_MEM_OBJECT_ALLOCATION_FAILURE "Failed to create buffer for input A" st0).st.out
      = ["Error: Failed to create buffer for input A -4",
         "(CL_MEM_OBJECT_ALIOCATION_FAILURE)", "\n"] := by
  exact ⟨by decide, by decide⟩

/-! ## The fallback path -/

/-- C1. When the runtime is not initialised, `gemm_nn_fpga` prints its
warning and returns after the host routine `gemm_nn` has run on the caller's
memory with the same ten arguments in the same order: the final memory is
what `gemm_nn` leaves, no runtime call is logged, the runtime and the
file-static variables are untouched. -/
theorem gemm_nn_fpga_uninitialized {R ρ : Type} (rt : Runtime R ρ) (gemm_nn : HostGemm R)
    (M N K : Int) (ALPHA : R) (A : Addr) (lda : Int) (B : Addr) (ldb : Int)
    (C : Addr) (ldc : Int) (s : St R ρ) (h : s.GEMM_FPGA_INITED = 0) :
    gemm_nn_fpga rt gemm_nn M N K ALPHA A lda B ldb C ldc s
      = Res.ret ()
          { s with
            mem := gemm_nn M N K ALPHA A lda B ldb C ldc s.mem
            out := s.out ++ ["Warning: Gemm FPGA wasn't initialized (Using CPU).\n"] } ∧
    (gemm_nn_fpga rt gemm_nn M N K ALPHA A lda B ldb C ldc s).st.trace = s.trace ∧
    (gemm_nn_fpga rt gemm_nn M N K ALPHA A lda B ldb C ldc s).st.rt = s.rt ∧
    (gemm_nn_fpga rt gemm_nn M N K ALPHA A lda B ldb C ldc s).st.mem
      = gemm_nn M N K ALPHA A lda B ldb C ldc s.mem := by
  have e : gemm_nn_fpga rt gemm_nn M N K ALPHA A lda B ldb C ldc s
      = Res.ret ()
          { s with
            mem := gemm_nn M N K ALPHA A lda B ldb C ldc s.mem
            out := s.out ++ ["Warning: Gemm FPGA wasn't initialized (Using CPU).\n"] } := by
    unfold gemm_nn_fpga
    rw [if_pos h]
    rfl
  rw [e]
  exact ⟨rfl, rfl, rfl, rfl⟩

/-- C1 (witness). -/
theorem gemm_nn_fpga_uninitialized_witness :
    st0.GEMM_FPGA_INITED = 0 ∧
    (gemm_nn_fpga (okRuntime Int) hostGemm 1 1 1 1 0 1 1 1 2 1 st0).st.trace = st0.trace ∧
    (gemm_nn_fpga (okRuntime Int) hostGemm 1 1 1 1 0 1 1 1 2 1 st0).st.mem
      = hostGemm 1 1 1 1 0 1 1 1 2 1 st0.mem :=
  ⟨rfl, (gemm_nn_fpga_uninitialized (okRuntime Int) hostGemm 1 1 1 1 0 1 1 1 2 1 st0 rfl).2.1,
    (gemm_nn_fpga_uninitialized (okRuntime Int) hostGemm 1 1 1 1 0 1 1 1 2 1 st0 rfl).2.2.2⟩

/-! ## `gemm_fpga_init` -/

theorem gemm_fpga_init_log {R ρ : Type} (rt : Runtime R ρ) (s : St R ρ)
    (h0 : s.GEMM_FPGA_INITED = 0) :
    Walk (InitOutcome s) [] s (gemm_fpga_init rt s) := by
  unfold gemm_fpga_init
  rw [if_neg (not_not.mpr h0)]
  -- platform
  refine walk_callWith _ (fun r1 ρ1 m1 _ => ?_); dsimp only
  refine walk_checkError _ (fun hbad => ?_) (fun ok1 => ?_)
  · exact ⟨(fun h => nomatch h), fun _ => ⟨rfl, h0, Or.inl ⟨_, _, rfl, hbad, by simp⟩⟩⟩
  -- device
  refine walk_callWith _ (fun r2 ρ1 m1 _ => ?_); dsimp only
  refine walk_quiet _ () _ rfl rfl ?_; dsimp only
  refine walk_checkError _ (fun hbad => ?_) (fun ok2 => ?_)
  · exact ⟨(fun h => nomatch h), fun _ => ⟨rfl, h0, Or.inl ⟨_, _, rfl, hbad, by simp [*]⟩⟩⟩
  -- context
  refine walk_callWith _ (fun r3 ρ1 m1 _ => ?_); dsimp only
  refine walk_quiet _ () _ rfl rfl ?_; dsimp only
  refine walk_checkError _ (fun hbad => ?_) (fun ok3 => ?_)
  · exact ⟨(fun h => nomatch h), fun _ => ⟨rfl, h0, Or.inl ⟨_, _, rfl, hbad, by simp [*]⟩⟩⟩
  -- kernel file
  refine walk_quiet _ (s.fs KERNEL_FILE) _ rfl rfl ?_; dsimp only
  cases hfs : s.fs KERNEL_FILE with
  | error errno =>
    dsimp only
    rw [bind_bind]
    refine walk_quiet _ () _ rfl rfl ?_; dsimp only
    refine walk_checkError _ (fun _ => ?_) (fun h => absurd h (by decide))
    exact ⟨(fun h => nomatch h), fun _ => ⟨rfl, h0, Or.inr ⟨⟨_, hfs⟩, rfl, by simp [*]⟩⟩⟩
  | ok len =>
    dsimp only
    refine walk_quiet _ () _ rfl rfl ?_; dsimp only
    -- program
    refine walk_callWith _ (fun r4 ρ1 m1 _ => ?_); dsimp only
    refine walk_quiet _ () _ rfl rfl ?_; dsimp only
    refine walk_checkError _ (fun hbad => ?_) (fun ok4 => ?_)
    · exact ⟨(fun h => nomatch h), fun _ => ⟨rfl, h0, Or.inl ⟨_, _, rfl, hbad, by simp [*]⟩⟩⟩
    -- build
    refine walk_callWith _ (fun r5 ρ1 m1 _ => ?_); dsimp only
    refine walk_checkError _ (fun hbad => ?_) (fun ok5 => ?_)
    · exact ⟨(fun h => nomatch h), fun _ => ⟨rfl, h0, Or.inl ⟨_, _, rfl, hbad, by simp [*]⟩⟩⟩
    -- queue
    refine walk_callWith _ (fun r6 ρ1 m1 _ => ?_); dsimp only
    refine walk_quiet _ () _ rfl rfl ?_; dsimp only
    refine walk_checkError _ (fun hbad => ?_) (fun ok6 => ?_)
    · exact ⟨(fun h => nomatch h), fun _ => ⟨rfl, h0, Or.inl ⟨_, _, rfl, hbad, by simp [*]⟩⟩⟩
    -- kernel
    refine walk_callWith _ (fun r7 ρ1 m1 _ => ?_); dsimp only
    refine walk_quiet _ () _ rfl rfl ?_; dsimp only
    refine walk_checkError _ (fun hbad => ?_) (fun ok7 => ?_)
    · exact ⟨(fun h => nomatch h), fun _ => ⟨rfl, h0, Or.inl ⟨_, _, rfl, hbad, by simp [*]⟩⟩⟩
    refine walk_quiet _ () _ rfl rfl ?_; dsimp only
    refine walk_ret _ ⟨fun _ => ⟨rfl, ⟨_, hfs⟩, rfl, by simp [*]⟩, (fun h => nomatch h)⟩

theorem walk_elim {R ρ α : Type} {P : List (Entry R) → Res (St R ρ) α → Prop} {s : St R ρ}
    {res : Res (St R ρ) α} (h : Walk P [] s res) :
    ∃ new, res.st.trace = s.trace ++ new ∧ P new res := by
  obtain ⟨new, h1, h2⟩ := h
  exact ⟨new, h1, by simpa using h2⟩

/-- C3. Redundant lifecycle calls do nothing: `gemm_fpga_init` in a Ready
state returns at once with the whole process state (flag, the five handles,
runtime, call log, output) unchanged; `gemm_fpga_deinit` in the
Uninitialized state does the same, so it logs no release and does not exit;
and running `gemm_fpga_init` twice in a row ends exactly as running it once,
from every state. -/
theorem lifecycle_redundant_calls {R ρ : Type} (rt : Runtime R ρ) (s1 s2 : St R ρ)
    (h1 : s1.GEMM_FPGA_INITED ≠ 0) (h2 : s2.GEMM_FPGA_INITED = 0) :
    gemm_fpga_init rt s1 = Res.ret () s1 ∧
    gemm_fpga_deinit rt s2 = Res.ret () s2 ∧
    ∀ s : St R ρ, (gemm_fpga_init rt >>= fun _ => gemm_fpga_init rt) s = gemm_fpga_init rt s := by
  have hinit : ∀ s : St R ρ, s.GEMM_FPGA_INITED ≠ 0 → gemm_fpga_init rt s = Res.ret () s := by
    intro s hs
    unfold gemm_fpga_init
    rw [if_pos hs]
  refine ⟨hinit s1 h1, ?_, ?_⟩
  · unfold gemm_fpga_deinit
    rw [if_pos h2]
  · intro s
    rw [bind_run]
    by_cases hs : s.GEMM_FPGA_INITED = 0
    · obtain ⟨new, -, hP⟩ := walk_elim (gemm_fpga_init_log rt s hs)
      cases hres : gemm_fpga_init rt s with
      | exit c s3 => rfl
      | ret a s3 =>
        rw [hres] at hP
        have : s3.GEMM_FPGA_INITED = 1 := (hP.1 rfl).1
        exact hinit s3 (by rw [this]; decide)
    · rw [hinit s hs]
      exact hinit s hs

/-- C3 (witness). -/
theorem lifecycle_redundant_calls_witness :
    stReady.GEMM_FPGA_INITED ≠ 0 ∧ st0.GEMM_FPGA_INITED = 0 ∧
    gemm_fpga_init (okRuntime Int) stReady = Res.ret () stReady ∧
    gemm_fpga_deinit (okRuntime Int) st0 = Res.ret () st0 ∧
    ∀ s : St Int Unit, (gemm_fpga_init (okRuntime Int) >>= fun _ =>
      gemm_fpga_init (okRuntime Int)) s = gemm_fpga_init (okRuntime Int) s :=
  ⟨by decide, rfl, lifecycle_redundant_calls (okRuntime Int) stReady st0 (by decide) rfl⟩

/-! ## `gemm_fpga_deinit` -/

/-- C4. In a Ready state `gemm_fpga_deinit` returns (it never exits, whatever
the release calls answer), leaves the flag at 0, and logs exactly one release
for each of kernel, command queue, program and context whose handle is
non-null, in that order, and nothing else. -/
theorem gemm_fpga_deinit_ready {R ρ : Type} (rt : Runtime R ρ) (s : St R ρ)
    (h : s.GEMM_FPGA_INITED ≠ 0) :
    (gemm_fpga_deinit rt s).returned = true ∧
    (gemm_fpga_deinit rt s).st.GEMM_FPGA_INITED = 0 ∧
    ∃ new, (gemm_fpga_deinit rt s).st.trace = s.trace ++ new ∧
      new.map Prod.fst =
        (if s.kernel ≠ 0 then [Call.clReleaseKernel s.kernel] else []) ++
        (if s.queue ≠ 0 then [Call.clReleaseCommandQueue s.queue] else []) ++
        (if s.program ≠ 0 then [Call.clReleaseProgram s.program] else []) ++
        (if s.context ≠ 0 then [Call.clReleaseContext s.context] else []) := by
  have key : Walk (fun new res => res.returned = true ∧ res.st.GEMM_FPGA_INITED = 0 ∧
      new.map Prod.fst =
        (if s.kernel ≠ 0 then [Call.clReleaseKernel s.kernel] else []) ++
        (if s.queue ≠ 0 then [Call.clReleaseCommandQueue s.queue] else []) ++
        (if s.program ≠ 0 then [Call.clReleaseProgram s.program] else []) ++
        (if s.context ≠ 0 then [Call.clReleaseContext s.context] else []))
      [] s (gemm_fpga_deinit rt s) := by
    unfold gemm_fpga_deinit
    rw [if_neg h]
    refine walk_release _ (fun l1 ρ1 m1 q1 => ?_); dsimp only at q1 ⊢
    refine walk_release _ (fun l2 ρ1 m1 q2 => ?_); dsimp only at q2 ⊢
    refine walk_release _ (fun l3 ρ1 m1 q3 => ?_); dsimp only at q3 ⊢
    refine walk_release _ (fun l4 ρ1 m1 q4 => ?_); dsimp only at q4 ⊢
    refine walk_quiet _ () _ rfl rfl ?_; dsimp only
    refine walk_ret _ ⟨rfl, rfl, ?_⟩
    rcases q1 with ⟨c1, rfl⟩ | ⟨c1, _, rfl, _⟩ <;> rcases q2 with ⟨c2, rfl⟩ | ⟨c2, _, rfl, _⟩ <;>
      rcases q3 with ⟨c3, rfl⟩ | ⟨c3, _, rfl, _⟩ <;>
      rcases q4 with ⟨c4, rfl⟩ | ⟨c4, _, rfl, _⟩ <;>
      simp only [if_pos c1, if_neg c1, if_pos c2, if_neg c2, if_pos c3, if_neg c3, if_pos c4,
        if_neg c4, List.map_append, List.map_cons, List.map_nil, List.append_nil,
        List.nil_append]
  obtain ⟨new, h1, h2, h3, h4⟩ := walk_elim key
  exact ⟨h2, h3, new, h1, h4⟩

/-- C4 (witness). -/
theorem gemm_fpga_deinit_ready_witness :
    stReady.GEMM_FPGA_INITED ≠ 0 ∧
    (gemm_fpga_deinit (okRuntime Int) stReady).returned = true ∧
    (gemm_fpga_deinit (okRuntime Int) stReady).st.GEMM_FPGA_INITED = 0 ∧
    ∃ new, (gemm_fpga_deinit (okRuntime Int) stReady).st.trace = stReady.trace ++ new ∧
      new.map Prod.fst =
        (if stReady.kernel ≠ 0 then [Call.clReleaseKernel stReady.kernel] else []) ++
        (if stReady.queue ≠ 0 then [Call.clReleaseCommandQueue stReady.queue] else []) ++
        (if stReady.program ≠ 0 then [Call.clReleaseProgram stReady.program] else []) ++
        (if stReady.context ≠ 0 then [Call.clReleaseContext stReady.context] else []) :=
  ⟨by decide, gemm_fpga_deinit_ready (okRuntime Int) stReady (by decide)⟩

/-! ## `gemm_nn_fpga` on a Ready runtime -/

/-- C5. `gemm_nn_fpga` never writes the readiness flag: from every state,
Ready or not, for all arguments and whatever the runtime answers, the flag
at the end of the call (returned or exited) is the flag at its start; nor
does `checkError` write it. The only assignments to the flag are those of
`gemm_fpga_init` and `gemm_fpga_deinit`. -/
theorem gemm_nn_fpga_keeps_flag {R ρ : Type} (rt : Runtime R ρ) (gemm_nn : HostGemm R)
    (M N K : Int) (ALPHA : R) (A : Addr) (lda : Int) (B : Addr) (ldb : Int)
    (C : Addr) (ldc : Int) (s : St R ρ) (err : Int) (name : String) :
    (gemm_nn_fpga rt gemm_nn M N K ALPHA A lda B ldb C ldc s).st.GEMM_FPGA_INITED
      = s.GEMM_FPGA_INITED ∧
    (checkError err name s).st.GEMM_FPGA_INITED = s.GEMM_FPGA_INITED := by
  constructor
  · by_cases h : s.GEMM_FPGA_INITED = 0
    · unfold gemm_nn_fpga
      rw [if_pos h]
      rfl
    · have key : Walk (fun _ res => res.st.GEMM_FPGA_INITED = s.GEMM_FPGA_INITED) [] s
          (gemm_nn_fpga rt gemm_nn M N K ALPHA A lda B ldb C ldc s) := by
        unfold gemm_nn_fpga
        rw [if_neg h]
        iterate 15
          refine walk_callWith _ (fun r ρ1 m1 _ => ?_)
          refine walk_checkError _ (fun _ => rfl) (fun _ => ?_)
        iterate 3
          refine walk_callVoid _ (fun r ρ1 m1 _ => ?_)
        iterate 3
          refine walk_release _ (fun l ρ1 m1 _ => ?_)
        exact walk_ret _ rfl
      obtain ⟨_, -, hP⟩ := walk_elim key
      exact hP
  · by_cases h : err = CL_SUCCESS
    · subst h
      rfl
    · rw [checkError_fail err name s h]
      rfl

/-- C6. Every `gemm_nn_fpga` call from a Ready state that returns has released
exactly the buffers and events it created, each once (the released objects are
a rearrangement of the created ones), the number of release calls is the
number of creations, every creation is among the first fifteen calls and
every release comes after the wait; it made no other release call. On a
runtime that never hands out a `NULL` buffer with `CL_SUCCESS` these objects
are five: the buffers for A, B, C and the events of the launch and of the
read-back. -/
theorem gemm_nn_fpga_resource_balance {R ρ : Type} (rt : Runtime R ρ) (gemm_nn : HostGemm R)
    (M N K : Int) (ALPHA : R) (A : Addr) (lda : Int) (B : Addr) (ldb : Int)
    (C : Addr) (ldc : Int) (s : St R ρ) (hready : s.GEMM_FPGA_INITED ≠ 0)
    (hret : (gemm_nn_fpga rt gemm_nn M N K ALPHA A lda B ldb C ldc s).returned = true) :
    ∃ new : List (Entry R),
      (gemm_nn_fpga rt gemm_nn M N K ALPHA A lda B ldb C ldc s).st.trace = s.trace ++ new ∧
      (new.filterMap released).Perm (new.filterMap created) ∧
      (new.filter fun e => e.1.isRelease).length = (new.filterMap created).length ∧
      (new.take 15).filterMap created = new.filterMap created ∧
      (new.drop 16).filterMap released = new.filterMap released ∧
      (CreatesNonNull rt → ∃ a b c kernel_event finish_event : Handle,
        new.filterMap created = [Obj.buffer a, Obj.buffer b, Obj.buffer c,
          Obj.event kernel_event, Obj.event finish_event] ∧
        new.filterMap released = [Obj.event kernel_event, Obj.event finish_event,
          Obj.buffer a, Obj.buffer b, Obj.buffer c]) := by
  obtain ⟨new, htrace, hP⟩ := walk_elim
    (gemm_nn_fpga_ready_log rt gemm_nn M N K ALPHA A lda B ldb C ldc s hready)
  obtain ⟨d, la, lb, lc, hnew, hok, ha, hb, hc, hans⟩ := hP hret
  simp only [DispatchAnswers.checked, List.forall_mem_cons, List.not_mem_nil, false_implies,
    implies_true, and_true] at hok
  obtain ⟨oa, ob, oc, -, -, -, -, -, -, -, -, -, -, ok, of⟩ := hok
  have hcre : new.filterMap created =
      ((if d.a_buf.handle ≠ 0 then [Obj.buffer d.a_buf.handle] else []) ++
        (if d.b_buf.handle ≠ 0 then [Obj.buffer d.b_buf.handle] else []) ++
        (if d.c_buf.handle ≠ 0 then [Obj.buffer d.c_buf.handle] else [])) ++
      [Obj.event d.launch.handle, Obj.event d.readBack.handle] := by
    rw [hnew]
    rcases ha with ⟨na, rfl⟩ | ⟨na, ra, rfl⟩ <;> rcases hb with ⟨nb, rfl⟩ | ⟨nb, rb, rfl⟩ <;>
      rcases hc with ⟨nc, rfl⟩ | ⟨nc, rc, rfl⟩ <;>
      simp [dispatchLog, created, oa, ob, oc, ok, of, na, nb, nc]
  have hrel : new.filterMap released =
      [Obj.event d.launch.handle, Obj.event d.readBack.handle] ++
      ((if d.a_buf.handle ≠ 0 then [Obj.buffer d.a_buf.handle] else []) ++
        (if d.b_buf.handle ≠ 0 then [Obj.buffer d.b_buf.handle] else []) ++
        (if d.c_buf.handle ≠ 0 then [Obj.buffer d.c_buf.handle] else [])) := by
    rw [hnew]
    rcases ha with ⟨na, rfl⟩ | ⟨na, ra, rfl⟩ <;> rcases hb with ⟨nb, rfl⟩ | ⟨nb, rb, rfl⟩ <;>
      rcases hc with ⟨nc, rfl⟩ | ⟨nc, rc, rfl⟩ <;>
      simp [dispatchLog, released, na, nb, nc]
  refine ⟨new, htrace, ?_, ?_, ?_, ?_, ?_⟩
  · rw [hcre, hrel]
    exact List.perm_append_comm
  · rw [hcre, hnew]
    rcases ha with ⟨na, rfl⟩ | ⟨na, ra, rfl⟩ <;> rcases hb with ⟨nb, rfl⟩ | ⟨nb, rb, rfl⟩ <;>
      rcases hc with ⟨nc, rfl⟩ | ⟨nc, rc, rfl⟩ <;>
      simp [dispatchLog, Call.isRelease, na, nb, nc]
  · rw [hnew]
    rcases ha with ⟨na, rfl⟩ | ⟨na, ra, rfl⟩ <;> rcases hb with ⟨nb, rfl⟩ | ⟨nb, rb, rfl⟩ <;>
      rcases hc with ⟨nc, rfl⟩ | ⟨nc, rc, rfl⟩ <;>
      simp [dispatchLog, created, oa, ob, oc, ok, of, na, nb, nc]
  · rw [hnew]
    rcases ha with ⟨na, rfl⟩ | ⟨na, ra, rfl⟩ <;> rcases hb with ⟨nb, rfl⟩ | ⟨nb, rb, rfl⟩ <;>
      rcases hc with ⟨nc, rfl⟩ | ⟨nc, rc, rfl⟩ <;>
      simp [dispatchLog, released]
  · intro hrt
    have nonnull : ∀ (ctx flags size : Nat) (p : Addr) (r : Response),
        (Call.clCreateBuffer ctx flags size p, r) ∈ new → r.status = CL_SUCCESS →
        r.handle ≠ 0 := by
      intro ctx flags size p r hmem hs
      obtain ⟨ρ0, m, hr⟩ := hans _ hmem
      simp only at hr
      rw [hr] at hs ⊢
      exact hrt ctx flags size p ρ0 m hs
    have na : d.a_buf.handle ≠ 0 :=
      nonnull s.context (CL_MEM_READ_ONLY ||| CL_MEM_COPY_HOST_PTR) (bufBytes M K) A d.a_buf
        (by rw [hnew]; simp [dispatchLog]) oa
    have nb : d.b_buf.handle ≠ 0 :=
      nonnull s.context (CL_MEM_READ_ONLY ||| CL_MEM_COPY_HOST_PTR) (bufBytes K N) B d.b_buf
        (by rw [hnew]; simp [dispatchLog]) ob
    have nc : d.c_buf.handle ≠ 0 :=
      nonnull s.context CL_MEM_COPY_HOST_PTR (bufBytes M N) C d.c_buf
        (by rw [hnew]; simp [dispatchLog]) oc
    refine ⟨d.a_buf.handle, d.b_buf.handle, d.c_buf.handle, d.launch.handle,
      d.readBack.handle, ?_, ?_⟩
    · rw [hcre, if_pos na, if_pos nb, if_pos nc]
      rfl
    · rw [hrel, if_pos na, if_pos nb, if_pos nc]
      rfl

theorem okRuntime_createsNonNull (R : Type) : CreatesNonNull (okRuntime R) := by
  intro ctx flags size hostPtr ρ0 m _
  exact Nat.one_ne_zero

/-- C6 (witness). -/
theorem gemm_nn_fpga_resource_balance_witness :
    stReady.GEMM_FPGA_INITED ≠ 0 ∧
    (gemm_nn_fpga (okRuntime Int) hostGemm 1 1 1 1 0 1 1 1 2 1 stReady).returned = true ∧
    ∃ new : List (Entry Int),
      (gemm_nn_fpga (okRuntime Int) hostGemm 1 1 1 1 0 1 1 1 2 1 stReady).st.trace
        = stReady.trace ++ new ∧
      (new.filterMap released).Perm (new.filterMap created) ∧
      (new.filter fun e => e.1.isRelease).length = (new.filterMap created).length ∧
      (new.take 15).filterMap created = new.filterMap created ∧
      (new.drop 16).filterMap released = new.filterMap released ∧
      (CreatesNonNull (okRuntime Int) → ∃ a b c kernel_event finish_event : Handle,
        new.filterMap created = [Obj.buffer a, Obj.buffer b, Obj.buffer c,
          Obj.event kernel_event, Obj.event finish_event] ∧
        new.filterMap released = [Obj.event kernel_event, Obj.event finish_event,
          Obj.buffer a, Obj.buffer b, Obj.buffer c]) :=
  ⟨by decide, by decide,
    gemm_nn_fpga_resource_balance (okRuntime Int) hostGemm 1 1 1 1 0 1 1 1 2 1 stReady
      (by decide) (by decide)⟩

/-- C9. Every `gemm_nn_fpga` call from a Ready state that returns has logged,
after buffer creations and argument bindings only, exactly one kernel launch
(one dimension, global work size 1, empty wait list), then exactly one
non-blocking read-back of the C buffer into the caller's `C` whose wait list
is the event of that launch, then a wait on the event of that read-back, and
after the wait nothing but release calls. -/
theorem gemm_nn_fpga_launch_read_wait {R ρ : Type} (rt : Runtime R ρ) (gemm_nn : HostGemm R)
    (M N K : Int) (ALPHA : R) (A : Addr) (lda : Int) (B : Addr) (ldb : Int)
    (C : Addr) (ldc : Int) (s : St R ρ) (hready : s.GEMM_FPGA_INITED ≠ 0)
    (hret : (gemm_nn_fpga rt gemm_nn M N K ALPHA A lda B ldb C ldc s).returned = true) :
    ∃ (pre post : List (Entry R)) (c_buf launch readBack wait : Response),
      (gemm_nn_fpga rt gemm_nn M N K ALPHA A lda B ldb C ldc s).st.trace
        = s.trace ++ (pre ++
          [(Call.clEnqueueNDRangeKernel s.queue s.kernel 1 [1] [], launch),
           (Call.clEnqueueReadBuffer s.queue c_buf.handle false 0 (bufBytes M N) C
              [launch.handle], readBack),
           (Call.clWaitForEvents [readBack.handle], wait)] ++ post) ∧
      (Call.clCreateBuffer s.context CL_MEM_COPY_HOST_PTR (bufBytes M N) C, c_buf) ∈ pre ∧
      (∀ e ∈ pre, e.1.name = "clCreateBuffer" ∨ e.1.name = "clSetKernelArg") ∧
      (∀ e ∈ post, e.1.isRelease = true) := by
  obtain ⟨new, htrace, hP⟩ := walk_elim
    (gemm_nn_fpga_ready_log rt gemm_nn M N K ALPHA A lda B ldb C ldc s hready)
  obtain ⟨d, la, lb, lc, hnew, -, ha, hb, hc, -⟩ := hP hret
  have rel : ∀ (h : Handle) (l : List (Entry R)), ReleaseLog h l →
      ∀ e ∈ l, e.1.isRelease = true := by
    intro h l hl e he
    rcases hl with ⟨-, rfl⟩ | ⟨-, r, rfl⟩
    · exact absurd he (List.not_mem_nil e)
    · rw [List.mem_singleton.mp he]
      rfl
  refine ⟨(dispatchLog s M N K ALPHA A lda B ldb C ldc d).take 13,
    (dispatchLog s M N K ALPHA A lda B ldb C ldc d).drop 16 ++ la ++ lb ++ lc,
    d.c_buf, d.launch, d.readBack, d.wait, ?_, ?_, ?_, ?_⟩
  · rw [htrace, hnew]
    simp [dispatchLog, CL_FALSE]
  · simp [dispatchLog]
  · simp [dispatchLog, Call.name]
  · intro e he
    simp only [List.mem_append] at he
    rcases he with ((he | he) | he) | he
    · simp only [dispatchLog, List.drop_succ_cons, List.drop_zero, List.mem_cons,
        List.not_mem_nil, or_false] at he
      rcases he with rfl | rfl <;> rfl
    · exact rel _ _ ha e he
    · exact rel _ _ hb e he
    · exact rel _ _ hc e he

/-- C9 (witness). -/
theorem gemm_nn_fpga_launch_read_wait_witness :
    stReady.GEMM_FPGA_INITED ≠ 0 ∧
    (gemm_nn_fpga (okRuntime Int) hostGemm 1 1 1 1 0 1 1 1 2 1 stReady).returned = true ∧
    ∃ (pre post : List (Entry Int)) (c_buf launch readBack wait : Response),
      (gemm_nn_fpga (okRuntime Int) hostGemm 1 1 1 1 0 1 1 1 2 1 stReady).st.trace
        = stReady.trace ++ (pre ++
          [(Call.clEnqueueNDRangeKernel stReady.queue stReady.kernel 1 [1] [], launch),
           (Call.clEnqueueReadBuffer stReady.queue c_buf.handle false 0 (bufBytes 1 1) 2
              [launch.handle], readBack),
           (Call.clWaitForEvents [readBack.handle], wait)] ++ post) ∧
      (Call.clCreateBuffer stReady.context CL_MEM_COPY_HOST_PTR (bufBytes 1 1) 2, c_buf)
        ∈ pre ∧
      (∀ e ∈ pre, e.1.name = "clCreateBuffer" ∨ e.1.name = "clSetKernelArg") ∧
      (∀ e ∈ post, e.1.isRelease = true) :=
  ⟨by decide, by decide,
    gemm_nn_fpga_launch_read_wait (okRuntime Int) hostGemm 1 1 1 1 0 1 1 1 2 1 stReady
      (by decide) (by decide)⟩

theorem gemm_nn_fpga_ready_outcome {R ρ : Type} (rt : Runtime R ρ) (gemm_nn : HostGemm R)
    (M N K : Int) (ALPHA : R) (A : Addr) (lda : Int) (B : Addr) (ldb : Int)
    (C : Addr) (ldc : Int) (s : St R ρ) (hready : s.GEMM_FPGA_INITED ≠ 0) :
    Walk DispatchOutcome [] s (gemm_nn_fpga rt gemm_nn M N K ALPHA A lda B ldb C ldc s) := by
  unfold gemm_nn_fpga
  rw [if_neg hready]
  iterate 15
    refine walk_callWith _ (fun r ρ1 m1 _ => ?_)
    dsimp only
    refine walk_checkError _ (fun hbad => ?_) (fun hok => ?_)
    · refine ⟨(fun h => nomatch h), fun _ => ⟨rfl, _, _, rfl, rfl, hbad, ?_⟩⟩
      simp [*, Call.isDispatchStep]
  iterate 3
    refine walk_callVoid _ (fun r ρ1 m1 _ => ?_)
    dsimp only
  refine walk_release _ (fun l1 ρ1 m1 h1 => ?_)
  dsimp only at h1 ⊢
  refine walk_release _ (fun l2 ρ1 m1 h2 => ?_)
  dsimp only at h2 ⊢
  refine walk_release _ (fun l3 ρ1 m1 h3 => ?_)
  dsimp only at h3 ⊢
  refine walk_ret _ ⟨fun hr => ?_, (fun h => nomatch h)⟩
  clear hr
  have q1 := (releaseLog_of h1).1
  have q2 := (releaseLog_of h2).1
  have q3 := (releaseLog_of h3).1
  clear h1 h2 h3
  have rel : ∀ (h : Handle) (l : List (Entry R)), ReleaseLog h l →
      ∀ e ∈ l, e.1.isDispatchStep = true → e.2.status = CL_SUCCESS := by
    intro h l hl e he
    rcases hl with ⟨-, rfl⟩ | ⟨-, r, rfl⟩
    · exact absurd he (List.not_mem_nil e)
    · rw [List.mem_singleton.mp he]
      exact fun h => nomatch h
  simp only [List.forall_mem_append, List.forall_mem_singleton, List.nil_append]
  refine ⟨⟨⟨?_, rel _ _ q1⟩, rel _ _ q2⟩, rel _ _ q3⟩
  simp [*, Call.isDispatchStep]

/-- C7 (amended). Fail-fast on every status that is handed to `checkError`.
`checkError` ends the process, with exit status 1, exactly when the status is
not `CL_SUCCESS`. `gemm_fpga_init` from the Uninitialized state either returns
with the flag set after its seven runtime calls and the opening of the kernel
file all succeeded, or exits with the flag still clear right after the first
runtime call that failed, or right after the failed `fopen`. `gemm_nn_fpga`
from a Ready state either returns after every buffer creation, argument
binding, launch and read-back it made succeeded, or exits right after the
first of these that failed, no later call being made. -/
theorem fail_fast_on_checked_status {R ρ : Type} (rt : Runtime R ρ) (gemm_nn : HostGemm R)
    (M N K : Int) (ALPHA : R) (A : Addr) (lda : Int) (B : Addr) (ldb : Int)
    (C : Addr) (ldc : Int) (s1 s2 s : St R ρ) (err : Int) (name : String)
    (h1 : s1.GEMM_FPGA_INITED = 0) (h2 : s2.GEMM_FPGA_INITED ≠ 0) :
    ((checkError err name s).returned = false ↔ err ≠ CL_SUCCESS) ∧
    (err ≠ CL_SUCCESS → (checkError err name s).exitCode = some 1) ∧
    (∃ new, (gemm_fpga_init rt s1).st.trace = s1.trace ++ new ∧
      InitOutcome s1 new (gemm_fpga_init rt s1)) ∧
    (∃ new, (gemm_nn_fpga rt gemm_nn M N K ALPHA A lda B ldb C ldc s2).st.trace
        = s2.trace ++ new ∧
      DispatchOutcome new (gemm_nn_fpga rt gemm_nn M N K ALPHA A lda B ldb C ldc s2)) := by
  refine ⟨?_, ?_, walk_elim (gemm_fpga_init_log rt s1 h1),
    walk_elim (gemm_nn_fpga_ready_outcome rt gemm_nn M N K ALPHA A lda B ldb C ldc s2 h2)⟩
  · by_cases h : err = CL_SUCCESS
    · subst h
      exact ⟨(fun hr => nomatch hr), fun hne => absurd rfl hne⟩
    · rw [checkError_fail err name s h]
      exact ⟨fun _ => h, fun _ => rfl⟩
  · intro h
    rw [checkError_fail err name s h]
    rfl

/-- C7 (witness). -/
theorem fail_fast_on_checked_status_witness :
    st0.GEMM_FPGA_INITED = 0 ∧ stReady.GEMM_FPGA_INITED ≠ 0 ∧
    ((checkError CL_INVALID_VALUE "" st0).returned = false ↔ CL_INVALID_VALUE ≠ CL_SUCCESS) ∧
    (CL_INVALID_VALUE ≠ CL_SUCCESS → (checkError CL_INVALID_VALUE "" st0).exitCode = some 1) ∧
    (∃ new, (gemm_fpga_init (okRuntime Int) st0).st.trace = st0.trace ++ new ∧
      InitOutcome st0 new (gemm_fpga_init (okRuntime Int) st0)) ∧
    (∃ new, (gemm_nn_fpga (okRuntime Int) hostGemm 1 1 1 1 0 1 1 1 2 1 stReady).st.trace
        = stReady.trace ++ new ∧
      DispatchOutcome new (gemm_nn_fpga (okRuntime Int) hostGemm 1 1 1 1 0 1 1 1 2 1 stReady)) :=
  ⟨rfl, by decide,
    fail_fast_on_checked_status (okRuntime Int) hostGemm 1 1 1 1 0 1 1 1 2 1 st0 stReady st0
      CL_INVALID_VALUE "" rfl (by decide)⟩

/-- C7 (counterexample). On a runtime whose `clWaitForEvents` answers
`CL_INVALID_EVENT`, a dispatch from a Ready state logs that failing status as
its sixteenth call, is not stopped by it, makes five more runtime calls, prints
nothing and returns: the status of the wait never reaches `checkError`. -/
theorem wait_status_not_checked :
    (gemm_nn_fpga (waitFailRuntime Int) hostGemm 1 1 1 1 0 1 1 1 2 1 stReady).st.trace.get? 15
      = some (Call.clWaitForEvents [1], ⟨CL_INVALID_EVENT, 0⟩) ∧
    CL_INVALID_EVENT ≠ CL_SUCCESS ∧
    ((gemm_nn_fpga (waitFailRuntime Int) hostGemm 1 1 1 1 0 1 1 1 2 1 stReady).st.trace.drop
        16).map (fun e => e.1.name)
      = ["clReleaseEvent", "clReleaseEvent", "clReleaseMemObject", "clReleaseMemObject",
         "clReleaseMemObject"] ∧
    (gemm_nn_fpga (waitFailRuntime Int) hostGemm 1 1 1 1 0 1 1 1 2 1 stReady).st.out = [] ∧
    (gemm_nn_fpga (waitFailRuntime Int) hostGemm 1 1 1 1 0 1 1 1 2 1 stReady).returned
      = true := by
  refine ⟨by decide, by decide, by decide, by decide, by decide⟩

/-! ## Buffer sizes -/

theorem bufBytes_eq (m k : Int) (hm : 0 ≤ m) (hk : 0 ≤ k) (h : m * k < 2 ^ 31) :
    (bufBytes m k : Int) = 4 * m * k := by
  have h0 : 0 ≤ m * k := Int.mul_nonneg hm hk
  have e1 : wrapInt32 (m * k) = m * k := by
    unfold wrapInt32
    rw [Int.emod_eq_of_lt (by omega) (by omega)]
    omega
  have e2 : toSizeT (m * k) = (m * k).toNat := by
    unfold toSizeT
    rw [Int.emod_eq_of_lt h0 (by omega)]
  unfold bufBytes
  rw [e1, e2]
  have e3 : (m * k).toNat * sizeof_float % 2 ^ 64 = (m * k).toNat * 4 := by
    unfold sizeof_float
    apply Nat.mod_eq_of_lt
    omega
  rw [e3]
  push_cast
  rw [Int.toNat_of_nonneg h0]
  ring

theorem requests_of_releaseLog {R : Type} {h : Handle} {l : List (Entry R)}
    (hl : ReleaseLog h l) : bufferRequests l = [] ∧ readRequests l = [] := by
  rcases hl with ⟨-, rfl⟩ | ⟨-, r, rfl⟩ <;> exact ⟨rfl, rfl⟩

theorem bufferRequests_append {R : Type} (l1 l2 : List (Entry R)) :
    bufferRequests (l1 ++ l2) = bufferRequests l1 ++ bufferRequests l2 := by
  unfold bufferRequests
  rw [List.filterMap_append]

theorem readRequests_append {R : Type} (l1 l2 : List (Entry R)) :
    readRequests (l1 ++ l2) = readRequests l1 ++ readRequests l2 := by
  unfold readRequests
  rw [List.filterMap_append]

theorem gemm_nn_fpga_ready_requests {R ρ : Type} (rt : Runtime R ρ) (gemm_nn : HostGemm R)
    (M N K : Int) (ALPHA : R) (A : Addr) (lda : Int) (B : Addr) (ldb : Int)
    (C : Addr) (ldc : Int) (s : St R ρ) (hready : s.GEMM_FPGA_INITED ≠ 0) :
    Walk (fun new res =>
        bufferRequests new <+: [(A, bufBytes M K), (B, bufBytes K N), (C, bufBytes M N)] ∧
        (bufferRequests new).head? = some (A, bufBytes M K) ∧
        readRequests new <+: [(C, 0, bufBytes M N)] ∧
        (res.returned = true →
          bufferRequests new = [(A, bufBytes M K), (B, bufBytes K N), (C, bufBytes M N)] ∧
          readRequests new = [(C, 0, bufBytes M N)]))
      [] s (gemm_nn_fpga rt gemm_nn M N K ALPHA A lda B ldb C ldc s) := by
  unfold gemm_nn_fpga
  rw [if_neg hready]
  iterate 15
    refine walk_callWith _ (fun r ρ1 m1 _ => ?_)
    dsimp only
    refine walk_checkError _ (fun hbad => ?_) (fun hok => ?_)
    · refine ⟨?_, ?_, ?_, (fun h => nomatch h)⟩ <;>
        simp [bufferRequests, readRequests]
  iterate 3
    refine walk_callVoid _ (fun r ρ1 m1 _ => ?_)
    dsimp only
  refine walk_release _ (fun l1 ρ1 m1 h1 => ?_)
  dsimp only at h1 ⊢
  refine walk_release _ (fun l2 ρ1 m1 h2 => ?_)
  dsimp only at h2 ⊢
  refine walk_release _ (fun l3 ρ1 m1 h3 => ?_)
  dsimp only at h3 ⊢
  obtain ⟨b1, c1⟩ := requests_of_releaseLog (releaseLog_of h1).1
  obtain ⟨b2, c2⟩ := requests_of_releaseLog (releaseLog_of h2).1
  obtain ⟨b3, c3⟩ := requests_of_releaseLog (releaseLog_of h3).1
  clear h1 h2 h3
  refine walk_ret _ ?_
  simp only [bufferRequests_append, readRequests_append, b1, b2, b3, c1, c2, c3,
    List.append_nil]
  refine ⟨?_, ?_, ?_, fun _ => ⟨?_, ?_⟩⟩ <;> simp [bufferRequests, readRequests, CL_FALSE]

theorem bufBytes_toNat (m k : Int) (hm : 0 ≤ m) (hk : 0 ≤ k) (h : m * k < 2 ^ 31) :
    bufBytes m k = (4 * m * k).toNat := by
  rw [← bufBytes_eq m k hm hk h, Int.toNat_ofNat]

/-- C10 (amended). For `M, N, K ≥ 0` whose products `M*K`, `K*N`, `M*N` fit in
a 32-bit `int`, in every run of `gemm_nn_fpga` from a Ready state the buffer
creations logged are, in order, a non-empty initial part of: `4*M*K` bytes
from `A`, `4*K*N` bytes from `B`, `4*M*N` bytes from `C`; a read-back, if one
is logged, has offset 0, length `4*M*N` and target `C`; and in a run that
returns all three buffers and the read-back were requested with exactly these
sizes. -/
theorem gemm_nn_fpga_buffer_sizes {R ρ : Type} (rt : Runtime R ρ) (gemm_nn : HostGemm R)
    (M N K : Int) (ALPHA : R) (A : Addr) (lda : Int) (B : Addr) (ldb : Int)
    (C : Addr) (ldc : Int) (s : St R ρ) (hready : s.GEMM_FPGA_INITED ≠ 0)
    (hM : 0 ≤ M) (hN : 0 ≤ N) (hK : 0 ≤ K)
    (hMK : M * K < 2 ^ 31) (hKN : K * N < 2 ^ 31) (hMN : M * N < 2 ^ 31) :
    ∃ new, (gemm_nn_fpga rt gemm_nn M N K ALPHA A lda B ldb C ldc s).st.trace
        = s.trace ++ new ∧
      bufferRequests new <+:
        [(A, (4 * M * K).toNat), (B, (4 * K * N).toNat), (C, (4 * M * N).toNat)] ∧
      (bufferRequests new).head? = some (A, (4 * M * K).toNat) ∧
      readRequests new <+: [(C, 0, (4 * M * N).toNat)] ∧
      ((gemm_nn_fpga rt gemm_nn M N K ALPHA A lda B ldb C ldc s).returned = true →
        bufferRequests new =
          [(A, (4 * M * K).toNat), (B, (4 * K * N).toNat), (C, (4 * M * N).toNat)] ∧
        readRequests new = [(C, 0, (4 * M * N).toNat)]) := by
  have h := walk_elim
    (gemm_nn_fpga_ready_requests rt gemm_nn M N K ALPHA A lda B ldb C ldc s hready)
  rw [bufBytes_toNat M K hM hK hMK, bufBytes_toNat K N hK hN hKN,
    bufBytes_toNat M N hM hN hMN] at h
  exact h

/-- C10 (witness). -/
theorem gemm_nn_fpga_buffer_sizes_witness :
    stReady.GEMM_FPGA_INITED ≠ 0 ∧ (0 : Int) ≤ 2 ∧ (0 : Int) ≤ 3 ∧ (0 : Int) ≤ 4 ∧
    ((2 : Int) * 4 < 2 ^ 31) ∧ ((4 : Int) * 3 < 2 ^ 31) ∧ ((2 : Int) * 3 < 2 ^ 31) ∧
    ∃ new, (gemm_nn_fpga (okRuntime Int) hostGemm 2 3 4 1 0 4 8 3 20 3 stReady).st.trace
        = stReady.trace ++ new ∧
      bufferRequests new <+:
        [(0, ((4 : Int) * 2 * 4).toNat), (8, ((4 : Int) * 4 * 3).toNat),
         (20, ((4 : Int) * 2 * 3).toNat)] ∧
      (bufferRequests new).head? = some (0, ((4 : Int) * 2 * 4).toNat) ∧
      readRequests new <+: [(20, 0, ((4 : Int) * 2 * 3).toNat)] ∧
      ((gemm_nn_fpga (okRuntime Int) hostGemm 2 3 4 1 0 4 8 3 20 3 stReady).returned = true →
        bufferRequests new =
          [(0, ((4 : Int) * 2 * 4).toNat), (8, ((4 : Int) * 4 * 3).toNat),
           (20, ((4 : Int) * 2 * 3).toNat)] ∧
        readRequests new = [(20, 0, ((4 : Int) * 2 * 3).toNat)]) :=
  ⟨by decide, by decide, by decide, by decide, by decide, by decide, by decide,
    gemm_nn_fpga_buffer_sizes (okRuntime Int) hostGemm 2 3 4 1 0 4 8 3 20 3 stReady
      (by decide) (by decide) (by decide) (by decide) (by decide) (by decide) (by decide)⟩

/-- C10 (counterexample). `M = K = 65536` and `N = 1` are 32-bit `int` values;
the `int` product `M * K` wraps to 0, so the buffer requested for `A` has 0
bytes, not `4 * 65536 * 65536`. -/
theorem buffer_size_wraps :
    bufferRequests
        (gemm_nn_fpga (okRuntime Int) hostGemm 65536 1 65536 1 0 65536 4294967296 1
          4295032832 1 stReady).st.trace
      = [(0, 0), (4294967296, 262144), (4295032832, 262144)] ∧
    (65536 : Int) < 2 ^ 31 ∧ ((0 : Nat) : Int) ≠ 4 * 65536 * 65536 := by
  refine ⟨by decide, by decide, by decide⟩

/-! ## The device path on the reference runtime -/

section det
variable {R ρ β : Type}

theorem det_callWith (Q : Res (St R ρ) β → Prop) {rt : Runtime R ρ} {c : St R ρ → Call R}
    {k : Response → Proc R ρ β} {s : St R ρ}
    (h : Q (k (rt.step (c s) s.rt s.mem).1
      { s with rt := (rt.step (c s) s.rt s.mem).2.1, mem := (rt.step (c s) s.rt s.mem).2.2,
               trace := s.trace ++ [(c s, (rt.step (c s) s.rt s.mem).1)] })) :
    Q ((callWith rt c >>= k) s) := h

theorem det_callVoid (Q : Res (St R ρ) β → Prop) {rt : Runtime R ρ} {c : St R ρ → Call R}
    {k : Unit → Proc R ρ β} {s : St R ρ}
    (h : Q (k ()
      { s with rt := (rt.step (c s) s.rt s.mem).2.1, mem := (rt.step (c s) s.rt s.mem).2.2,
               trace := s.trace ++ [(c s, (rt.step (c s) s.rt s.mem).1)] })) :
    Q ((callVoid rt c >>= k) s) := h

theorem det_checkError (Q : Res (St R ρ) β → Prop) {name : String}
    {k : Unit → Proc R ρ β} {s : St R ρ} (h : Q (k () s)) :
    Q ((checkError CL_SUCCESS name >>= k) s) := h

theorem det_ifThen (Q : Res (St R ρ) β → Prop) {c : St R ρ → Prop} {inst : DecidablePred c}
    {body : Proc R ρ Unit} {k : Unit → Proc R ρ β} {s : St R ρ} (hc : c s)
    (h : Q ((body >>= k) s)) :
    Q ((ifThen c body >>= k) s) := by
  have e : (ifThen c body >>= k) s = (body >>= k) s := by
    simp only [bind_run, ifThen, if_pos hc]
  rw [e]; exact h

end det

theorem bufBytes_nat (m k : Nat) (h : m * k < 2 ^ 31) :
    bufBytes (m : Int) (k : Int) = 4 * (m * k) := by
  have h1 := bufBytes_eq (m : Int) (k : Int) (Int.natCast_nonneg m) (Int.natCast_nonneg k)
    (by exact_mod_cast h)
  have h2 : ((bufBytes (m : Int) (k : Int) : Nat) : Int) = ((4 * (m * k) : Nat) : Int) := by
    rw [h1]; push_cast; ring
  exact_mod_cast h2

theorem copy_flags :
    ((CL_MEM_READ_ONLY ||| CL_MEM_COPY_HOST_PTR) &&& CL_MEM_COPY_HOST_PTR ≠ 0) ∧
    (CL_MEM_COPY_HOST_PTR &&& CL_MEM_COPY_HOST_PTR ≠ 0) := by decide

theorem getD_map_range {α : Type} (f : Nat → α) (d : α) (n p : Nat) (h : p < n) :
    ((List.range n).map f).getD p d = f p := by
  rw [List.getD_eq_getElem _ _ (by simpa using h)]
  simp

theorem refGemm_length {R : Type} [Ring R] (M N K : Nat) (ALPHA : R) (a : List R) (lda : Nat)
    (b : List R) (ldb : Nat) (c : List R) (ldc : Nat) :
    (refGemm M N K ALPHA a lda b ldb c ldc).length = c.length := by
  simp [refGemm]

theorem cell_index_lt {M N i j : Nat} (hi : i < M) (hj : j < N) : i * N + j < M * N := by
  calc i * N + j < i * N + N := Nat.add_lt_add_left hj _
    _ = (i + 1) * N := by ring
    _ ≤ M * N := Nat.mul_le_mul_right N hi

/-- The reference kernel on compactly stored copies of the host operands. -/
theorem refGemm_compact {R : Type} [Ring R] (M N K : Nat) (ALPHA : R) (m0 : Mem R)
    (A B C i j : Nat) (hi : i < M) (hj : j < N) :
    (refGemm M N K ALPHA ((List.range (M * K)).map fun q => m0 (A + q)) K
        ((List.range (K * N)).map fun q => m0 (B + q)) N
        ((List.range (M * N)).map fun q => m0 (C + q)) N).getD (i * N + j) 0
      = m0 (C + (i * N + j)) +
        gemmCell K ALPHA (fun q => m0 (A + q)) K (fun q => m0 (B + q)) N i j := by
  have hN : 0 < N := Nat.lt_of_le_of_lt (Nat.zero_le j) hj
  have hp : i * N + j < M * N := cell_index_lt hi hj
  have hdiv : (i * N + j) / N = i := by
    rw [Nat.add_comm, Nat.add_mul_div_right _ _ hN, Nat.div_eq_of_lt hj, Nat.zero_add]
  have hmod : (i * N + j) % N = j := by
    rw [Nat.add_comm, Nat.add_mul_mod_self_right, Nat.mod_eq_of_lt hj]
  unfold refGemm
  rw [List.length_map, List.length_range, getD_map_range _ _ _ _ hp, hdiv, hmod,
    if_pos ⟨hi, hj⟩, getD_map_range _ _ _ _ hp]
  congr 1
  unfold gemmCell
  congr 2
  apply List.map_congr_left
  intro k hk
  have hk' : k < K := List.mem_range.mp hk
  dsimp only
  rw [getD_map_range _ _ _ _ (cell_index_lt hi hk'), getD_map_range _ _ _ _ (cell_index_lt hk' hj)]


/-- On the reference runtime a dispatch with non-empty, compactly stored
operands whose sizes fit in `int` returns with `C := alpha·A·B + C`. -/
theorem gemm_nn_fpga_ref_result {R : Type} [Ring R] (gemm_nn : HostGemm R) (M N K : Nat) (ALPHA : R)
    (A B C : Addr) (s : St R (RefState R)) (hready : s.GEMM_FPGA_INITED ≠ 0)
    (hM : 0 < M) (hN : 0 < N) (hK : 0 < K)
    (hMK : M * K < 2 ^ 31) (hKN : K * N < 2 ^ 31) (hMN : M * N < 2 ^ 31) :
    GemmResult s.mem M N K ALPHA A K B N C N
      (gemm_nn_fpga (refRuntime R) gemm_nn M N K ALPHA A K B N C N s) := by
  have nMK : 4 * (M * K) ≠ 0 := Nat.mul_ne_zero (by decide) (Nat.mul_pos hM hK).ne'
  have nKN : 4 * (K * N) ≠ 0 := Nat.mul_ne_zero (by decide) (Nat.mul_pos hK hN).ne'
  have nMN : 4 * (M * N) ≠ 0 := Nat.mul_ne_zero (by decide) (Nat.mul_pos hM hN).ne'
  unfold gemm_nn_fpga
  rw [if_neg hready, bufBytes_nat M K hMK, bufBytes_nat K N hKN, bufBytes_nat M N hMN]
  refine det_callWith _ ?_
  simp only [refRuntime, refStep, if_neg nMK, if_pos copy_flags.1]
  refine det_checkError _ ?_
  refine det_callWith _ ?_
  simp only [refRuntime, refStep, if_neg nKN, if_pos copy_flags.1]
  refine det_checkError _ ?_
  refine det_callWith _ ?_
  simp only [refRuntime, refStep, if_neg nMN, if_pos copy_flags.2]
  refine det_checkError _ ?_
  iterate 10
    refine det_callWith _ ?_
    simp only [refRuntime, refStep]
    refine det_checkError _ ?_
  refine det_callWith _ ?_
  simp only [refRuntime, refStep]
  have e12 : ∀ n : Nat, n + 1 ≠ n + 1 + 1 := fun n => by omega
  have e13 : ∀ n : Nat, n + 1 ≠ n + 1 + 1 + 1 := fun n => by omega
  have e23 : ∀ n : Nat, n + 1 + 1 ≠ n + 1 + 1 + 1 := fun n => by omega
  simp only [refLaunch, boundDims, boundOperand, argInt, argFloat, argMem, Option.bind_eq_bind,
    Option.some_bind, Option.pure_def, Nat.reduceAdd, Nat.reduceEqDiff, if_true, if_false,
    ite_true, ite_false, OfNat.ofNat_ne_zero, OfNat.ofNat_ne_one, e12, e13, e23, List.prod_cons,
    List.prod_nil, mul_one, Function.iterate_succ, Function.iterate_zero, Function.comp_apply,
    id_eq, Int.toNat_ofNat, sizeof_float, Nat.mul_div_cancel_left, Nat.zero_lt_succ]
  refine det_checkError _ ?_
  refine det_callWith _ ?_
  simp only [refRuntime, refStep, if_true, ite_true, refGemm_length, List.length_map,
    List.length_range, sizeof_float, Nat.zero_add, le_refl, Nat.mul_div_cancel_left,
    Nat.zero_lt_succ, Nat.zero_div, CL_FALSE, Bool.false_eq_true, if_false, ite_false]
  refine det_checkError _ ?_
  refine det_callVoid _ ?_
  simp only [refRuntime, refStep, List.foldl_cons, List.foldl_nil]
  simp only [runEvent, execCmd, Cmd.waitList, List.foldl_cons, List.foldl_nil, if_true, ite_true,
    e12, if_false, ite_false]
  simp only [refLaunch, boundDims, boundOperand, argInt, argFloat, argMem, Option.bind_eq_bind,
    Option.some_bind, Option.pure_def, Nat.reduceAdd, Nat.reduceEqDiff, if_true, if_false,
    ite_true, ite_false, OfNat.ofNat_ne_zero, OfNat.ofNat_ne_one, e12, e13, e23, List.prod_cons,
    List.prod_nil, mul_one, Function.iterate_succ, Function.iterate_zero, Function.comp_apply,
    id_eq, Int.toNat_ofNat, sizeof_float, Nat.mul_div_cancel_left, Nat.zero_lt_succ, Nat.zero_div,
    Nat.zero_add]
  iterate 2
    refine det_callVoid _ ?_
    simp only [refRuntime, refStep]
  refine det_ifThen _ (by simp only [if_neg nMK]; exact Nat.succ_ne_zero _) ?_
  refine det_callVoid _ ?_
  simp only [refRuntime, refStep]
  refine det_ifThen _ (by simp only [if_neg nKN]; exact Nat.succ_ne_zero _) ?_
  refine det_callVoid _ ?_
  simp only [refRuntime, refStep]
  refine det_ifThen _ (by simp only [if_neg nMN]; exact Nat.succ_ne_zero _) ?_
  refine det_callVoid _ ?_
  simp only [refRuntime, refStep]
  refine ⟨rfl, ?_, ?_⟩
  · intro i hi j hj
    have hp : i * N + j < M * N := cell_index_lt hi hj
    show (if C ≤ C + (i * N + j) ∧ C + (i * N + j) < C + M * N then _ else _) = _
    rw [if_pos ⟨Nat.le_add_right _ _, Nat.add_lt_add_left hp _⟩, Nat.add_sub_cancel_left]
    exact refGemm_compact M N K ALPHA s.mem A B C i j hi hj
  · intro p hp
    have hc : ¬(C ≤ p ∧ p < C + M * N) := by
      rintro ⟨h1, h2⟩
      rcases hp with h | h
      · exact absurd h1 (Nat.not_le.mpr h)
      · exact absurd h2 (Nat.not_lt.mpr h)
    show (if C ≤ p ∧ p < C + M * N then _ else _) = _
    rw [if_neg hc]

/-- The lemma above at `M = N = K = 2`, `alpha = 1`, `A = [1, 2, 3, 4]` at
address 0, `B = [5, 6, 7, 8]` at address 4, `C = [1, 1, 1, 1]` at address 8. -/
theorem gemm_nn_fpga_ref_result_sample :
    GemmResult (memOf [1, 2, 3, 4, 5, 6, 7, 8, 1, 1, 1, 1]) 2 2 2 1 0 2 4 2 8 2
      (gemm_nn_fpga (refRuntime Int) hostGemm (2 : Nat) (2 : Nat) (2 : Nat) 1 0 (2 : Nat) 4
        (2 : Nat) 8 (2 : Nat) (stRef (memOf [1, 2, 3, 4, 5, 6, 7, 8, 1, 1, 1, 1]))) :=
  gemm_nn_fpga_ref_result hostGemm 2 2 2 1 0 4 8
    (stRef (memOf [1, 2, 3, 4, 5, 6, 7, 8, 1, 1, 1, 1]))
    (by decide) (by decide) (by decide) (by decide) (by decide) (by decide) (by decide)

/-- The two sample dispatches of the specification: with `A = [2]`, `B = [3]`,
`alpha = 1` the reference runtime turns `C = [0]` into `[6]` and `C = [1]`
into `[7]`. -/
theorem gemm_nn_fpga_accumulates :
    (gemm_nn_fpga (refRuntime Int) hostGemm 1 1 1 1 0 1 1 1 2 1
      (stRef (memOf [2, 3, 0]))).st.mem 2 = 6 ∧
    (gemm_nn_fpga (refRuntime Int) hostGemm 1 1 1 1 0 1 1 1 2 1
      (stRef (memOf [2, 3, 1]))).st.mem 2 = 7 := by
  exact ⟨by decide, by decide⟩

/-- C2. The device path loses the rows of a `C` whose leading dimension
exceeds `N`. Input: `M = 2`, `N = K = 1`, `alpha = 1`, `lda = 1`, `ldb = 1`,
`ldc = 2`, with `A = [2, 5]` at address 0, `B = [3]` at address 2 and
`C = [0, _, 0]` at address 3, on the reference runtime in a Ready state.
`gemm_nn_fpga` returns; the `C` buffer it creates holds the `M*N = 2` cells at
the addresses 3 and 4 and only these are read back, so host memory ends as
`[2, 5, 3, 6, 0, 0]`: the cell `C[1*ldc+0]` at address 5 is still `0`, where
`C_old[1*ldc+0] + alpha * A[1*lda+0] * B[0*ldb+0]` is `15`, and where the host
routine called with the same ten arguments leaves `[2, 5, 3, 6, 0, 15]`. -/
theorem gemm_nn_fpga_ignores_ldc :
    (gemm_nn_fpga (refRuntime Int) hostGemm 2 1 1 1 0 1 2 1 3 2
      (stRef (memOf [2, 5, 3, 0, 0, 0]))).returned = true ∧
    (List.range 6).map (gemm_nn_fpga (refRuntime Int) hostGemm 2 1 1 1 0 1 2 1 3 2
      (stRef (memOf [2, 5, 3, 0, 0, 0]))).st.mem = [2, 5, 3, 6, 0, 0] ∧
    (gemm_nn_fpga (refRuntime Int) hostGemm 2 1 1 1 0 1 2 1 3 2
      (stRef (memOf [2, 5, 3, 0, 0, 0]))).st.mem (3 + (1 * 2 + 0)) = 0 ∧
    memOf [2, 5, 3, 0, 0, 0] (3 + (1 * 2 + 0)) +
      1 * ((List.range 1).map fun k =>
        memOf [2, 5, 3, 0, 0, 0] (0 + (1 * 1 + k)) *
          memOf [2, 5, 3, 0, 0, 0] (2 + (k * 1 + 0))).sum = 15 ∧
    (List.range 6).map (hostGemm 2 1 1 1 0 1 2 1 3 2 (memOf [2, 5, 3, 0, 0, 0]))
      = [2, 5, 3, 6, 0, 15] := by
  refine ⟨by decide, by decide, by decide, by decide, by decide⟩

end GemmFpga
